import Mathlib

/-!
# VkComputeTest: the Vulkan compute application

A shallow embedding of `VulkanComputeApplication.cpp`.  The Vulkan implementation the program talks
to is an explicit `Driver` value: it answers the physical-device queries and decides the `VkResult`
of every call.  The application object is an `App` value; every Vulkan call the program issues on
the instance or on the logical device is appended to `App.calls`, in program order.
-/

namespace VkComputeTest

/-! ## Constants of `vulkan_core.h` -/

/-- Handles are plain numbers; `VK_NULL_HANDLE` is zero. -/
abbrev VkPhysicalDevice := Nat

def VK_NULL_HANDLE : VkPhysicalDevice := 0
def VK_SUCCESS : Int := 0
def VK_QUEUE_COMPUTE_BIT : Nat := 0x2
def VK_MEMORY_PROPERTY_HOST_VISIBLE_BIT : Nat := 0x2
def VK_MEMORY_PROPERTY_HOST_COHERENT_BIT : Nat := 0x4
def VK_MAX_MEMORY_TYPES : Nat := 32
def VK_BUFFER_USAGE_STORAGE_BUFFER_BIT : Nat := 0x20
def VK_SHARING_MODE_EXCLUSIVE : Nat := 0
def VK_DESCRIPTOR_TYPE_STORAGE_BUFFER : Nat := 7
def VK_SHADER_STAGE_COMPUTE_BIT : Nat := 0x20
def VK_WHOLE_SIZE : Nat := 2 ^ 64 - 1
def VK_COMMAND_BUFFER_LEVEL_PRIMARY : Nat := 0
def VK_COMMAND_BUFFER_USAGE_ONE_TIME_SUBMIT_BIT : Nat := 0x1
def VK_PIPELINE_BIND_POINT_COMPUTE : Nat := 1
def VK_KHR_GET_PHYSICAL_DEVICE_PROPERTIES_2_EXTENSION_NAME : String :=
  "VK_KHR_get_physical_device_properties2"
def VK_EXT_DEBUG_UTILS_EXTENSION_NAME : String := "VK_EXT_debug_utils"

/-! ## Data model -/

structure VkQueueFamilyProperties where
  queueFlags : Nat
  deriving DecidableEq, Repr

structure VkMemoryType where
  propertyFlags : Nat
  heapIndex : Nat
  deriving DecidableEq, Repr

structure VkMemoryHeap where
  size : Nat
  deriving DecidableEq, Repr

/-- The table filled in by `vkGetPhysicalDeviceMemoryProperties`: `memoryTypeCount` is the length of
`memoryTypes` and `memoryHeapCount` the length of `memoryHeaps`. -/
structure VkPhysicalDeviceMemoryProperties where
  memoryTypes : List VkMemoryType
  memoryHeaps : List VkMemoryHeap
  deriving DecidableEq, Repr

/-- The handle members of `VulkanComputeApplication` that name objects the program creates. -/
inductive Handle where
  | vkInstance
  | debugMessenger
  | logicalDevice
  | deviceMemory
  | inputBuffer
  | outputBuffer
  | shaderModule
  | descriptorSetLayout
  | pipelineLayout
  | pipeline
  | descriptorPool
  | descriptorSet
  | commandPool
  | commandBuffer
  deriving DecidableEq, Repr

structure VkDescriptorSetLayoutBinding where
  binding : Nat
  descriptorType : Nat
  descriptorCount : Nat
  stageFlags : Nat
  deriving DecidableEq, Repr

structure VkDescriptorBufferInfo where
  buffer : Handle
  offset : Nat
  range : Nat
  deriving DecidableEq, Repr

structure VkWriteDescriptorSet where
  dstBinding : Nat
  dstArrayElement : Nat
  descriptorCount : Nat
  descriptorType : Nat
  bufferInfo : VkDescriptorBufferInfo
  deriving DecidableEq, Repr

/-- The Vulkan calls the program issues on the instance and on the logical device, with the
arguments the program chooses. -/
inductive VkCall where
  | vkCreateInstance (enabledExtensionNames : List String) (enabledLayerCount : Nat)
  | createDebugUtilsMessengerEXT
  | vkCreateDevice (physicalDevice : VkPhysicalDevice) (queueFamilyIndex queueCount : Nat)
      (enabledExtensionNames : List String) (enabledLayerCount : Nat)
  | vkGetDeviceQueue (queueFamilyIndex queueIndex : Nat)
  | vkAllocateMemory (allocationSize memoryTypeIndex : Nat)
  | vkCreateBuffer (target : Handle) (size usage sharingMode queueFamilyIndex : Nat)
  | vkBindBufferMemory (buffer : Handle) (memoryOffset : Nat)
  | vkCreateShaderModule (codeSize : Nat)
  | vkCreateDescriptorSetLayout (bindings : List VkDescriptorSetLayoutBinding)
  | vkCreatePipelineLayout (setLayoutCount pushConstantRangeCount : Nat)
  | vkCreateComputePipelines (stage : Nat) (pName : String)
  | vkCreateDescriptorPool (type descriptorCount maxSets : Nat)
  | vkAllocateDescriptorSets (descriptorSetCount : Nat)
  | vkUpdateDescriptorSets (writes : List VkWriteDescriptorSet)
  | vkCreateCommandPool (queueFamilyIndex : Nat)
  | vkAllocateCommandBuffers (level commandBufferCount : Nat)
  | vkBeginCommandBuffer (flags : Nat)
  | vkCmdBindPipeline (pipelineBindPoint : Nat)
  | vkCmdBindDescriptorSets (pipelineBindPoint firstSet descriptorSetCount : Nat)
  | vkCmdDispatch (groupCountX groupCountY groupCountZ : Nat)
  | vkEndCommandBuffer
  | vkQueueSubmit (waitSemaphoreCount commandBufferCount signalSemaphoreCount : Nat)
  | vkQueueWaitIdle
  | vkMapMemory (offset size : Nat)
  | vkUnmapMemory
  | vkFreeCommandBuffers (commandBufferCount : Nat)
  | vkDestroyCommandPool
  | vkDestroyDescriptorPool
  | vkDestroyPipeline
  | vkDestroyPipelineLayout
  | vkDestroyDescriptorSetLayout
  | vkDestroyShaderModule
  | vkDestroyBuffer (buffer : Handle)
  | vkFreeMemory
  | vkDestroyDevice
  | destroyDebugUtilsMessengerEXT
  | vkDestroyInstance
  deriving DecidableEq, Repr

/-- The world outside the program: the answers of the Vulkan implementation, the validation
switches of `VulkanDebugUtils`, and the shader file on disk.  Physical-device handles returned by
`vkEnumeratePhysicalDevices` are numbers; the three query functions give what the implementation
reports for a handle. -/
structure Driver where
  /-- The switch `VulkanDebugUtils::isValidationEnabled()`. -/
  isValidationEnabled : Bool
  /-- The answer of `VulkanDebugUtils::isValidationSupported()`. -/
  isValidationSupported : Bool
  /-- The list `VulkanDebugUtils::validationLayers`. -/
  validationLayers : List String
  /-- The handles `vkEnumeratePhysicalDevices` returns. -/
  physicalDevices : List VkPhysicalDevice
  /-- The families `vkGetPhysicalDeviceQueueFamilyProperties` returns. -/
  queueFamilyProperties : VkPhysicalDevice → List VkQueueFamilyProperties
  /-- The extension names `vkEnumerateDeviceExtensionProperties` returns. -/
  deviceExtensionProperties : VkPhysicalDevice → List String
  /-- The table `vkGetPhysicalDeviceMemoryProperties` returns. -/
  memoryProperties : VkPhysicalDevice → VkPhysicalDeviceMemoryProperties
  /-- The bytes of `shaders/simple.comp`, or `none` when the file cannot be opened. -/
  shaderFile : Option (List Nat)
  /-- The `VkResult` of each call. -/
  result : VkCall → Int

/-- The members of `VulkanComputeApplication` the program reads back, and the trace of the calls
issued so far.  `physicalDevice` starts as `VK_NULL_HANDLE` (its member initialiser);
`computeQueueFamilyIndex` has no initialiser and is not read before `assignPhysicalDevice` stores
it. -/
structure App where
  physicalDevice : VkPhysicalDevice := VK_NULL_HANDLE
  computeQueueFamilyIndex : Nat := 0
  calls : List VkCall := []
  deriving DecidableEq, Repr

/-- Issue a call: append it to the trace. -/
def App.record (app : App) (call : VkCall) : App :=
  { app with calls := app.calls ++ [call] }

/-- How a member function ends: it returns, or it throws `std::runtime_error(message)`.  Either
way the application object is in the state the function left it in. -/
inductive Outcome where
  | ok (app : App)
  | throw (message : String) (app : App)
  deriving DecidableEq, Repr

def Outcome.app : Outcome → App
  | .ok app => app
  | .throw _ app => app

def Outcome.isOk : Outcome → Bool
  | .ok _ => true
  | .throw _ _ => false

/-- Sequencing of statements: the next statement runs only when the previous one returned. -/
def Outcome.andThen (o : Outcome) (next : App → Outcome) : Outcome :=
  match o with
  | .ok app => next app
  | .throw message app => .throw message app

/-- The macro `VK_ASSERT_SUCCESS(result, message)`. -/
def VK_ASSERT_SUCCESS (result : Int) (message : String) (app : App) : Outcome :=
  if result ≠ VK_SUCCESS then .throw message app else .ok app

/-! ## Vulkan instance and debug messenger -/

def baseInstanceExtensions : List String :=
  [VK_KHR_GET_PHYSICAL_DEVICE_PROPERTIES_2_EXTENSION_NAME]

def getRequiredInstanceExtensionNames (drv : Driver) : List String :=
  let extensions := baseInstanceExtensions
  if drv.isValidationEnabled then extensions ++ [VK_EXT_DEBUG_UTILS_EXTENSION_NAME]
  else extensions

def createVulkanInstance (drv : Driver) (app : App) : Outcome :=
  if drv.isValidationEnabled && !drv.isValidationSupported then
    .throw "Validation layers requested, but not available!" app
  else
    let requiredExtensionNames := getRequiredInstanceExtensionNames drv
    let enabledLayerCount := if drv.isValidationEnabled then drv.validationLayers.length else 0
    let call := VkCall.vkCreateInstance requiredExtensionNames enabledLayerCount
    VK_ASSERT_SUCCESS (drv.result call) "failed to create Vulkan instance!" (app.record call)

def destroyVulkanInstance (app : App) : App :=
  app.record .vkDestroyInstance

def createDebugMessenger (drv : Driver) (app : App) : Outcome :=
  if !drv.isValidationEnabled then .ok app
  else
    let call := VkCall.createDebugUtilsMessengerEXT
    VK_ASSERT_SUCCESS (drv.result call) "Failed to set up debug messenger!" (app.record call)

def destroyDebugMessenger (drv : Driver) (app : App) : App :=
  if !drv.isValidationEnabled then app
  else app.record .destroyDebugUtilsMessengerEXT

/-! ## Physical device -/

def deviceExtensions : List String := ["VK_KHR_portability_subset"]

/-- No special extensions for compute. -/
def requiredDeviceExtensions : List String := []

/-- The required names are erased one by one for every extension the device reports; the device is
adequate when nothing is left.  (The C++ set holds `const char*`; with `requiredDeviceExtensions`
empty the function returns at its first statement and the erasing branch never runs.) -/
def isPhysicalDeviceExtensionSupportAdequate (drv : Driver) (device : VkPhysicalDevice) : Bool :=
  if requiredDeviceExtensions.length = 0 then true
  else
    let deviceExtensionProperties := drv.deviceExtensionProperties device
    let requiredExtensionSet :=
      deviceExtensionProperties.foldl (fun set extension => set.filter (fun name => name ≠ extension))
        requiredDeviceExtensions.eraseDups
    requiredExtensionSet.isEmpty

/-- The `for` loop of `getComputeQueueFamilyIndex`, entered with the counter at `i`.  The counter is
advanced twice per round: by the `++i` that ends the loop body and by the `++i` of the `for`
statement.  Leaving the loop reaches `return NULL;`, which initialises the returned
`std::optional<uint32_t>` from the integer null constant, an optional that holds `0`.
`fuel` bounds the rounds; `queueFamilyProperties.length + 1` rounds are never used up (see
`getComputeQueueFamilyIndexLoop_fuel`).  The counter is a `uint32_t`; it is a `Nat` here, exact
for every count below `2 ^ 32 - 1`. -/
def getComputeQueueFamilyIndexLoop (queueFamilyProperties : List VkQueueFamilyProperties) :
    Nat → Nat → Option Nat
  | 0, _ => some 0
  | fuel + 1, i =>
    if i < queueFamilyProperties.length then
      if (queueFamilyProperties.getD i ⟨0⟩).queueFlags &&& VK_QUEUE_COMPUTE_BIT ≠ 0 then
        some i
      else
        getComputeQueueFamilyIndexLoop queueFamilyProperties fuel (i + 1 + 1)
    else
      some 0

def getComputeQueueFamilyIndex (drv : Driver) (physicalDevice : VkPhysicalDevice) : Option Nat :=
  let queueFamilyProperties := drv.queueFamilyProperties physicalDevice
  getComputeQueueFamilyIndexLoop queueFamilyProperties (queueFamilyProperties.length + 1) 0

def isPhysicalDeviceSuitable (drv : Driver) (device : VkPhysicalDevice) : Bool :=
  let allRequiredExtensionsSupported := isPhysicalDeviceExtensionSupportAdequate drv device
  let computeQueueFamilyIndex := getComputeQueueFamilyIndex drv device
  allRequiredExtensionsSupported && computeQueueFamilyIndex.isSome

/-- The range-`for` of `assignPhysicalDevice`: the member `physicalDevice` after the loop, given
its value before.  The first suitable device is stored and the loop is left by `break`. -/
def assignPhysicalDeviceLoop (drv : Driver) :
    List VkPhysicalDevice → VkPhysicalDevice → VkPhysicalDevice
  | [], physicalDevice => physicalDevice
  | device :: rest, physicalDevice =>
    if isPhysicalDeviceSuitable drv device then device
    else assignPhysicalDeviceLoop drv rest physicalDevice

def assignPhysicalDevice (drv : Driver) (app : App) : Outcome :=
  let physicalDeviceCount := drv.physicalDevices.length
  if physicalDeviceCount = 0 then
    .throw "Failed to find any GPUs with Vulkan support!" app
  else
    let physicalDevices := drv.physicalDevices
    let app := { app with
      physicalDevice := assignPhysicalDeviceLoop drv physicalDevices app.physicalDevice }
    if app.physicalDevice = VK_NULL_HANDLE then
      .throw "Failed to find a suitable GPU!" app
    else
      match getComputeQueueFamilyIndex drv app.physicalDevice with
      | some index => .ok { app with computeQueueFamilyIndex := index }
      | none => .throw "bad optional access" app

/-! ## Logical device -/

def createLogicalDevice (drv : Driver) (app : App) : Outcome :=
  let enabledLayerCount := if drv.isValidationEnabled then drv.validationLayers.length else 0
  let call := VkCall.vkCreateDevice app.physicalDevice app.computeQueueFamilyIndex 1
    deviceExtensions enabledLayerCount
  (VK_ASSERT_SUCCESS (drv.result call) "Failed to create logical device!" (app.record call)).andThen
    fun app => .ok (app.record (.vkGetDeviceQueue app.computeQueueFamilyIndex 0))

def destroyLogicalDevice (app : App) : App :=
  app.record .vkDestroyDevice

/-! ## Device memory -/

/-- The condition of the `if` inside the loop of `createDeviceMemory`, for memory type `i`.  The
loop only visits indices below `memoryTypeCount`; a heap index outside the heap table, which no
Vulkan implementation reports, reads as a heap of size `0`. -/
def memoryTypeSuits (memoryProperties : VkPhysicalDeviceMemoryProperties) (memorySize i : Nat) :
    Bool :=
  let memoryType := memoryProperties.memoryTypes.getD i ⟨0, 0⟩
  decide (memoryType.propertyFlags &&& VK_MEMORY_PROPERTY_HOST_VISIBLE_BIT ≠ 0)
    && decide (memoryType.propertyFlags &&& VK_MEMORY_PROPERTY_HOST_COHERENT_BIT ≠ 0)
    && decide (memorySize ≤ (memoryProperties.memoryHeaps.getD memoryType.heapIndex ⟨0⟩).size)

/-- The loop of `createDeviceMemory`: `memoryTypeIndex` after the rounds `i = 0 .. count - 1`,
starting from `VK_MAX_MEMORY_TYPES`.  Every round whose type suits overwrites the index. -/
def findMemoryTypeIndex (memoryProperties : VkPhysicalDeviceMemoryProperties) (memorySize : Nat) :
    Nat :=
  (List.range memoryProperties.memoryTypes.length).foldl
    (fun memoryTypeIndex i =>
      if memoryTypeSuits memoryProperties memorySize i then i else memoryTypeIndex)
    VK_MAX_MEMORY_TYPES

def createDeviceMemory (drv : Driver) (app : App) : Outcome :=
  let memorySize := 2048
  let memoryProperties := drv.memoryProperties app.physicalDevice
  let memoryTypeIndex := findMemoryTypeIndex memoryProperties memorySize
  if memoryTypeIndex = VK_MAX_MEMORY_TYPES then
    .throw "Failed to find suitable memory!" app
  else
    let call := VkCall.vkAllocateMemory memorySize memoryTypeIndex
    VK_ASSERT_SUCCESS (drv.result call) "Failed to allocate device memory!" (app.record call)

def destroyDeviceMemory (app : App) : App :=
  app.record .vkFreeMemory

/-! ## Buffers -/

def createStorageBuffers (drv : Driver) (app : App) : Outcome :=
  let bufferSize := 1024
  let createInfo := fun (target : Handle) =>
    VkCall.vkCreateBuffer target bufferSize VK_BUFFER_USAGE_STORAGE_BUFFER_BIT
      VK_SHARING_MODE_EXCLUSIVE app.computeQueueFamilyIndex
  (VK_ASSERT_SUCCESS (drv.result (createInfo .inputBuffer)) "Failed to create input buffer!"
      (app.record (createInfo .inputBuffer))).andThen fun app =>
    let app := app.record (.vkBindBufferMemory .inputBuffer 0)
    (VK_ASSERT_SUCCESS (drv.result (createInfo .outputBuffer)) "Failed to create input buffer!"
        (app.record (createInfo .outputBuffer))).andThen fun app =>
      .ok (app.record (.vkBindBufferMemory .outputBuffer bufferSize))

def destroyStorageBuffers (app : App) : App :=
  (app.record (.vkDestroyBuffer .inputBuffer)).record (.vkDestroyBuffer .outputBuffer)

/-! ## Shader module -/

/-- The function `FileUtils::readLocalFile`: the bytes of the file, or the thrown message. -/
def readLocalFile (drv : Driver) : Except String (List Nat) :=
  match drv.shaderFile with
  | none => .error "Failed to open file!"
  | some buffer => .ok buffer

def createShaderModule (drv : Driver) (app : App) : Outcome :=
  match readLocalFile drv with
  | .error message => .throw message app
  | .ok computeShaderCode =>
    let call := VkCall.vkCreateShaderModule computeShaderCode.length
    VK_ASSERT_SUCCESS (drv.result call) "Failed to create shader module!" (app.record call)

def destroyShaderModule (app : App) : App :=
  app.record .vkDestroyShaderModule

/-! ## Descriptor set layout, pipeline layout, pipeline -/

def createDescriptorSetLayout (drv : Driver) (app : App) : Outcome :=
  let inputLayoutBinding : VkDescriptorSetLayoutBinding :=
    { binding := 0, descriptorType := VK_DESCRIPTOR_TYPE_STORAGE_BUFFER, descriptorCount := 1,
      stageFlags := VK_SHADER_STAGE_COMPUTE_BIT }
  let outputLayoutBinding : VkDescriptorSetLayoutBinding :=
    { binding := 1, descriptorType := VK_DESCRIPTOR_TYPE_STORAGE_BUFFER, descriptorCount := 1,
      stageFlags := VK_SHADER_STAGE_COMPUTE_BIT }
  let call := VkCall.vkCreateDescriptorSetLayout [inputLayoutBinding, outputLayoutBinding]
  VK_ASSERT_SUCCESS (drv.result call) "Failed to create descriptor set layout!" (app.record call)

def destroyDescriptorSetLayout (app : App) : App :=
  app.record .vkDestroyDescriptorSetLayout

def createPipelineLayout (drv : Driver) (app : App) : Outcome :=
  let call := VkCall.vkCreatePipelineLayout 1 0
  VK_ASSERT_SUCCESS (drv.result call) "Failed to create pipeline layout!" (app.record call)

def destroyPipelineLayout (app : App) : App :=
  app.record .vkDestroyPipelineLayout

def createPipeline (drv : Driver) (app : App) : Outcome :=
  let call := VkCall.vkCreateComputePipelines VK_SHADER_STAGE_COMPUTE_BIT "main"
  VK_ASSERT_SUCCESS (drv.result call) "Failed to create compute pipeline!" (app.record call)

def destroyPipeline (app : App) : App :=
  app.record .vkDestroyPipeline

/-! ## Descriptor pool and descriptor set -/

def createDescriptorPools (drv : Driver) (app : App) : Outcome :=
  let call := VkCall.vkCreateDescriptorPool VK_DESCRIPTOR_TYPE_STORAGE_BUFFER 2 1
  VK_ASSERT_SUCCESS (drv.result call) "Failed to create descriptor pool!" (app.record call)

def destroyDescriptorPools (app : App) : App :=
  app.record .vkDestroyDescriptorPool

def createDescriptorSets (drv : Driver) (app : App) : Outcome :=
  let call := VkCall.vkAllocateDescriptorSets 1
  (VK_ASSERT_SUCCESS (drv.result call) "Failed to allocate descriptor set!"
      (app.record call)).andThen fun app =>
    let inputBufferInfo : VkDescriptorBufferInfo :=
      { buffer := .inputBuffer, offset := 0, range := VK_WHOLE_SIZE }
    let inputWriteDescriptorSet : VkWriteDescriptorSet :=
      { dstBinding := 0, dstArrayElement := 0, descriptorCount := 1,
        descriptorType := VK_DESCRIPTOR_TYPE_STORAGE_BUFFER, bufferInfo := inputBufferInfo }
    let outputBufferInfo : VkDescriptorBufferInfo :=
      { buffer := .outputBuffer, offset := 0, range := VK_WHOLE_SIZE }
    let outputWriteDescriptorSet : VkWriteDescriptorSet :=
      { dstBinding := 1, dstArrayElement := 0, descriptorCount := 1,
        descriptorType := VK_DESCRIPTOR_TYPE_STORAGE_BUFFER, bufferInfo := outputBufferInfo }
    .ok (app.record (.vkUpdateDescriptorSets [inputWriteDescriptorSet, outputWriteDescriptorSet]))

/-- The body is empty: the pool is created without the free-descriptor-set bit, so the set is not
freed on its own. -/
def destroyDescriptorSets (app : App) : App :=
  app

/-! ## Command pool and command buffer -/

def createCommandPool (drv : Driver) (app : App) : Outcome :=
  let call := VkCall.vkCreateCommandPool app.computeQueueFamilyIndex
  VK_ASSERT_SUCCESS (drv.result call) "Failed to create command pool!" (app.record call)

def destroyCommandPool (app : App) : App :=
  app.record .vkDestroyCommandPool

def createCommandBuffer (drv : Driver) (app : App) : Outcome :=
  let call := VkCall.vkAllocateCommandBuffers VK_COMMAND_BUFFER_LEVEL_PRIMARY 1
  VK_ASSERT_SUCCESS (drv.result call) "Failed to allocate command buffer!" (app.record call)

def destroyCommandBuffer (app : App) : App :=
  app.record (.vkFreeCommandBuffers 1)

def recordCommandBuffer (drv : Driver) (app : App) : Outcome :=
  let call := VkCall.vkBeginCommandBuffer VK_COMMAND_BUFFER_USAGE_ONE_TIME_SUBMIT_BIT
  (VK_ASSERT_SUCCESS (drv.result call) "Failed to begin command buffer!"
      (app.record call)).andThen fun app =>
    let app := app.record (.vkCmdBindPipeline VK_PIPELINE_BIND_POINT_COMPUTE)
    let app := app.record (.vkCmdBindDescriptorSets VK_PIPELINE_BIND_POINT_COMPUTE 0 1)
    let app := app.record (.vkCmdDispatch 32 32 1)
    let call := VkCall.vkEndCommandBuffer
    VK_ASSERT_SUCCESS (drv.result call) "Failed to end command buffer!" (app.record call)

/-! ## Submit -/

def submitComputeQueue (drv : Driver) (app : App) : Outcome :=
  let call := VkCall.vkQueueSubmit 0 1 0
  (VK_ASSERT_SUCCESS (drv.result call) "Failed to submit compute queue!"
      (app.record call)).andThen fun app =>
    let call := VkCall.vkQueueWaitIdle
    (VK_ASSERT_SUCCESS (drv.result call) "Failed to wait for compute queue idle!"
        (app.record call)).andThen fun app =>
      let call := VkCall.vkMapMemory 0 2048
      (VK_ASSERT_SUCCESS (drv.result call) "Failed to map memory!"
          (app.record call)).andThen fun app =>
        .ok (app.record .vkUnmapMemory)

/-! ## Constructor, destructor, run -/

/-- The statements of the constructor body, in order. -/
def constructorSteps (drv : Driver) : List (App → Outcome) :=
  [ createVulkanInstance drv,
    createDebugMessenger drv,
    assignPhysicalDevice drv,
    createLogicalDevice drv,
    createDeviceMemory drv,
    createStorageBuffers drv,
    createShaderModule drv,
    createDescriptorSetLayout drv,
    createPipelineLayout drv,
    createPipeline drv,
    createDescriptorPools drv,
    createDescriptorSets drv,
    createCommandPool drv,
    createCommandBuffer drv,
    recordCommandBuffer drv ]

/-- Run statements one after the other; a throw ends the run and is the outcome. -/
def runSteps (steps : List (App → Outcome)) (start : Outcome) : Outcome :=
  steps.foldl Outcome.andThen start

/-- The constructor `VulkanComputeApplication::VulkanComputeApplication()`, on a fresh object.  It has no
handler: when a statement throws, the exception leaves the constructor at once, and since the
object was never constructed its destructor does not run. -/
def VulkanComputeApplication.construct (drv : Driver) : Outcome :=
  runSteps (constructorSteps drv) (.ok {})

/-- The destructor `VulkanComputeApplication::~VulkanComputeApplication()`. -/
def VulkanComputeApplication.destruct (drv : Driver) (app : App) : App :=
  app
    |> destroyCommandBuffer
    |> destroyCommandPool
    |> destroyDescriptorSets
    |> destroyDescriptorPools
    |> destroyPipeline
    |> destroyPipelineLayout
    |> destroyDescriptorSetLayout
    |> destroyShaderModule
    |> destroyStorageBuffers
    |> destroyDeviceMemory
    |> destroyLogicalDevice
    |> destroyDebugMessenger drv
    |> destroyVulkanInstance

def VulkanComputeApplication.run (drv : Driver) (app : App) : Outcome :=
  submitComputeQueue drv app

/-! ## Notions the properties are stated with -/

/-- A queue family is compute-capable: its flags include the compute bit. -/
def VkQueueFamilyProperties.hasCompute (family : VkQueueFamilyProperties) : Prop :=
  family.queueFlags &&& VK_QUEUE_COMPUTE_BIT ≠ 0

instance (family : VkQueueFamilyProperties) : Decidable family.hasCompute := by
  unfold VkQueueFamilyProperties.hasCompute; infer_instance

/-- A device qualifies: some queue family of it is compute-capable and it reports every required
device extension. -/
def deviceQualifies (drv : Driver) (device : VkPhysicalDevice) : Prop :=
  (∃ family ∈ drv.queueFamilyProperties device, family.hasCompute) ∧
    ∀ name ∈ requiredDeviceExtensions, name ∈ drv.deviceExtensionProperties device

instance (drv : Driver) (device : VkPhysicalDevice) : Decidable (deviceQualifies drv device) := by
  unfold deviceQualifies; infer_instance

/-- Memory type `i` of the table qualifies for `memorySize` bytes: it is host-visible and
host-coherent and its heap holds at least `memorySize` bytes. -/
def memoryTypeQualifies (memoryProperties : VkPhysicalDeviceMemoryProperties)
    (memorySize i : Nat) : Prop :=
  ∃ memoryType heap,
    memoryProperties.memoryTypes[i]? = some memoryType ∧
    memoryProperties.memoryHeaps[memoryType.heapIndex]? = some heap ∧
    memoryType.propertyFlags &&& VK_MEMORY_PROPERTY_HOST_VISIBLE_BIT ≠ 0 ∧
    memoryType.propertyFlags &&& VK_MEMORY_PROPERTY_HOST_COHERENT_BIT ≠ 0 ∧
    memorySize ≤ heap.size

/-- The object a call creates when it succeeds. -/
def VkCall.creates : VkCall → Option Handle
  | .vkCreateInstance .. => some .vkInstance
  | .createDebugUtilsMessengerEXT => some .debugMessenger
  | .vkCreateDevice .. => some .logicalDevice
  | .vkAllocateMemory .. => some .deviceMemory
  | .vkCreateBuffer target .. => some target
  | .vkCreateShaderModule .. => some .shaderModule
  | .vkCreateDescriptorSetLayout .. => some .descriptorSetLayout
  | .vkCreatePipelineLayout .. => some .pipelineLayout
  | .vkCreateComputePipelines .. => some .pipeline
  | .vkCreateDescriptorPool .. => some .descriptorPool
  | .vkAllocateDescriptorSets .. => some .descriptorSet
  | .vkCreateCommandPool .. => some .commandPool
  | .vkAllocateCommandBuffers .. => some .commandBuffer
  | _ => none

/-- The object a call releases. -/
def VkCall.releases : VkCall → Option Handle
  | .vkFreeCommandBuffers .. => some .commandBuffer
  | .vkDestroyCommandPool => some .commandPool
  | .vkDestroyDescriptorPool => some .descriptorPool
  | .vkDestroyPipeline => some .pipeline
  | .vkDestroyPipelineLayout => some .pipelineLayout
  | .vkDestroyDescriptorSetLayout => some .descriptorSetLayout
  | .vkDestroyShaderModule => some .shaderModule
  | .vkDestroyBuffer buffer => some buffer
  | .vkFreeMemory => some .deviceMemory
  | .vkDestroyDevice => some .logicalDevice
  | .destroyDebugUtilsMessengerEXT => some .debugMessenger
  | .vkDestroyInstance => some .vkInstance
  | _ => none

/-- The objects a trace created, in creation order: a creating call counts when the driver
answered it with `VK_SUCCESS`. -/
def createdObjects (drv : Driver) (calls : List VkCall) : List Handle :=
  calls.filterMap fun call => if drv.result call = VK_SUCCESS then call.creates else none

/-- The objects a trace released, in release order. -/
def releasedObjects (calls : List VkCall) : List Handle :=
  calls.filterMap VkCall.releases

/-- The objects a trace created and did not release. -/
def liveObjects (drv : Driver) (calls : List VkCall) : List Handle :=
  (createdObjects drv calls).filter fun object => object ∉ releasedObjects calls

/-- The position in `constructorSteps` of the statement that creates an object. -/
def Handle.createdBy : Handle → Nat
  | .vkInstance => 0
  | .debugMessenger => 1
  | .logicalDevice => 3
  | .deviceMemory => 4
  | .inputBuffer => 5
  | .outputBuffer => 5
  | .shaderModule => 6
  | .descriptorSetLayout => 7
  | .pipelineLayout => 8
  | .pipeline => 9
  | .descriptorPool => 10
  | .descriptorSet => 11
  | .commandPool => 12
  | .commandBuffer => 13

/-- The sizes passed to `vkAllocateMemory` in a trace. -/
def allocationSizes (calls : List VkCall) : List Nat :=
  calls.filterMap fun call =>
    match call with
    | .vkAllocateMemory allocationSize _ => some allocationSize
    | _ => none

/-- The buffers created in a trace, each with its `size`. -/
def bufferSizes (calls : List VkCall) : List (Handle × Nat) :=
  calls.filterMap fun call =>
    match call with
    | .vkCreateBuffer target size _ _ _ => some (target, size)
    | _ => none

/-- The buffers bound to the device memory in a trace, each with its `memoryOffset`. -/
def bufferOffsets (calls : List VkCall) : List (Handle × Nat) :=
  calls.filterMap fun call =>
    match call with
    | .vkBindBufferMemory buffer memoryOffset => some (buffer, memoryOffset)
    | _ => none

/-- The trace of a construction in which every statement returns, as a function of the stored
physical device and queue family index, the memory type index passed to `vkAllocateMemory` and the
byte length of the shader file. -/
def constructTrace (drv : Driver)
    (physicalDevice computeQueueFamilyIndex memoryTypeIndex codeSize : Nat) : List VkCall :=
  [ .vkCreateInstance (getRequiredInstanceExtensionNames drv)
      (if drv.isValidationEnabled then drv.validationLayers.length else 0) ]
  ++ (if drv.isValidationEnabled then [.createDebugUtilsMessengerEXT] else [])
  ++ [ .vkCreateDevice physicalDevice computeQueueFamilyIndex 1 deviceExtensions
        (if drv.isValidationEnabled then drv.validationLayers.length else 0),
       .vkGetDeviceQueue computeQueueFamilyIndex 0,
       .vkAllocateMemory 2048 memoryTypeIndex,
       .vkCreateBuffer .inputBuffer 1024 VK_BUFFER_USAGE_STORAGE_BUFFER_BIT
          VK_SHARING_MODE_EXCLUSIVE computeQueueFamilyIndex,
       .vkBindBufferMemory .inputBuffer 0,
       .vkCreateBuffer .outputBuffer 1024 VK_BUFFER_USAGE_STORAGE_BUFFER_BIT
          VK_SHARING_MODE_EXCLUSIVE computeQueueFamilyIndex,
       .vkBindBufferMemory .outputBuffer 1024,
       .vkCreateShaderModule codeSize,
       .vkCreateDescriptorSetLayout
          [ ⟨0, VK_DESCRIPTOR_TYPE_STORAGE_BUFFER, 1, VK_SHADER_STAGE_COMPUTE_BIT⟩,
            ⟨1, VK_DESCRIPTOR_TYPE_STORAGE_BUFFER, 1, VK_SHADER_STAGE_COMPUTE_BIT⟩ ],
       .vkCreatePipelineLayout 1 0,
       .vkCreateComputePipelines VK_SHADER_STAGE_COMPUTE_BIT "main",
       .vkCreateDescriptorPool VK_DESCRIPTOR_TYPE_STORAGE_BUFFER 2 1,
       .vkAllocateDescriptorSets 1,
       .vkUpdateDescriptorSets
          [ ⟨0, 0, 1, VK_DESCRIPTOR_TYPE_STORAGE_BUFFER, ⟨.inputBuffer, 0, VK_WHOLE_SIZE⟩⟩,
            ⟨1, 0, 1, VK_DESCRIPTOR_TYPE_STORAGE_BUFFER, ⟨.outputBuffer, 0, VK_WHOLE_SIZE⟩⟩ ],
       .vkCreateCommandPool computeQueueFamilyIndex,
       .vkAllocateCommandBuffers VK_COMMAND_BUFFER_LEVEL_PRIMARY 1,
       .vkBeginCommandBuffer VK_COMMAND_BUFFER_USAGE_ONE_TIME_SUBMIT_BIT,
       .vkCmdBindPipeline VK_PIPELINE_BIND_POINT_COMPUTE,
       .vkCmdBindDescriptorSets VK_PIPELINE_BIND_POINT_COMPUTE 0 1,
       .vkCmdDispatch 32 32 1,
       .vkEndCommandBuffer ]

/-- The state `after` continues the trace of `before` with calls that all satisfy `P`. -/
def AddsOnly (P : VkCall → Prop) (before after : App) : Prop :=
  ∃ calls, after.calls = before.calls ++ calls ∧ ∀ call ∈ calls, P call

/-- The calls `recordCommandBuffer` issues on the command buffer when recording begins and ends
without error, in order. -/
def recordingCalls : List VkCall :=
  [ .vkBeginCommandBuffer VK_COMMAND_BUFFER_USAGE_ONE_TIME_SUBMIT_BIT,
    .vkCmdBindPipeline VK_PIPELINE_BIND_POINT_COMPUTE,
    .vkCmdBindDescriptorSets VK_PIPELINE_BIND_POINT_COMPUTE 0 1,
    .vkCmdDispatch 32 32 1,
    .vkEndCommandBuffer ]

/-- A call that begins or ends recording, or records a command. -/
def VkCall.isRecording : VkCall → Bool
  | .vkBeginCommandBuffer .. => true
  | .vkCmdBindPipeline .. => true
  | .vkCmdBindDescriptorSets .. => true
  | .vkCmdDispatch .. => true
  | .vkEndCommandBuffer => true
  | _ => false

/-- The calls `submitComputeQueue` issues when none of them fails, in order. -/
def submitCalls : List VkCall :=
  [.vkQueueSubmit 0 1 0, .vkQueueWaitIdle, .vkMapMemory 0 2048, .vkUnmapMemory]

/-- The binding lists of the descriptor set layouts created in a trace. -/
def descriptorSetLayouts (calls : List VkCall) : List (List VkDescriptorSetLayoutBinding) :=
  calls.filterMap fun call =>
    match call with
    | .vkCreateDescriptorSetLayout bindings => some bindings
    | _ => none

/-- The descriptor pools created in a trace: descriptor type, descriptor count, `maxSets`. -/
def descriptorPools (calls : List VkCall) : List (Nat × Nat × Nat) :=
  calls.filterMap fun call =>
    match call with
    | .vkCreateDescriptorPool type descriptorCount maxSets => some (type, descriptorCount, maxSets)
    | _ => none

/-- The `descriptorSetCount` of each descriptor set allocation in a trace. -/
def descriptorSetAllocations (calls : List VkCall) : List Nat :=
  calls.filterMap fun call =>
    match call with
    | .vkAllocateDescriptorSets descriptorSetCount => some descriptorSetCount
    | _ => none

/-- The write lists of the `vkUpdateDescriptorSets` calls in a trace. -/
def descriptorUpdates (calls : List VkCall) : List (List VkWriteDescriptorSet) :=
  calls.filterMap fun call =>
    match call with
    | .vkUpdateDescriptorSets writes => some writes
    | _ => none

/-! ## Concrete drivers -/

/-- One device, handle `7`, with a single compute-capable queue family and one host-visible,
host-coherent memory type on a heap of 4096 bytes; validation on; a 4-byte shader file; every call
returns `VK_SUCCESS`. -/
def plainDriver : Driver where
  isValidationEnabled := true
  isValidationSupported := true
  validationLayers := ["VK_LAYER_KHRONOS_validation"]
  physicalDevices := [7]
  queueFamilyProperties := fun _ => [⟨VK_QUEUE_COMPUTE_BIT⟩]
  deviceExtensionProperties := fun _ => []
  memoryProperties := fun _ => ⟨[⟨6, 0⟩], [⟨4096⟩]⟩
  shaderFile := some [3, 2, 35, 7]
  result := fun _ => VK_SUCCESS

/-- Two devices: `7` has one graphics-only family (flags `1`), `8` has one compute family. -/
def graphicsThenComputeDriver : Driver :=
  { plainDriver with
    physicalDevices := [7, 8]
    queueFamilyProperties := fun device => if device = 8 then [⟨2⟩] else [⟨1⟩] }

/-- One device, `7`, whose only queue family is graphics-only (flags `1`). -/
def graphicsOnlyDriver : Driver :=
  { plainDriver with queueFamilyProperties := fun _ => [⟨1⟩] }

/-- One device, `7`, with a transfer-only family (flags `4`) followed by a compute family. -/
def transferThenComputeDriver : Driver :=
  { plainDriver with queueFamilyProperties := fun _ => [⟨4⟩, ⟨2⟩] }

/-- One device, `7`, with families graphics-only, compute, compute. -/
def computeAtOneAndTwoDriver : Driver :=
  { plainDriver with queueFamilyProperties := fun _ => [⟨1⟩, ⟨2⟩, ⟨2⟩] }

/-- One device, `7`, that reports no queue family at all. -/
def noFamilyDriver : Driver :=
  { plainDriver with queueFamilyProperties := fun _ => [] }

/-- Memory types `0` and `1` are both host-visible and host-coherent on a heap of 4096 bytes. -/
def twoSuitableTypesDriver : Driver :=
  { plainDriver with memoryProperties := fun _ => ⟨[⟨6, 0⟩, ⟨6, 0⟩], [⟨4096⟩]⟩ }

/-- The only host-visible, host-coherent memory type sits on a heap of 1024 bytes. -/
def smallHeapDriver : Driver :=
  { plainDriver with memoryProperties := fun _ => ⟨[⟨6, 0⟩, ⟨1, 1⟩], [⟨1024⟩, ⟨8192⟩]⟩ }

/-- As `plainDriver`, but `vkCreateComputePipelines` returns `VK_ERROR_OUT_OF_HOST_MEMORY`
(`-1`). -/
def pipelineFailsDriver : Driver :=
  { plainDriver with
    result := fun call =>
      match call with
      | .vkCreateComputePipelines .. => -1
      | _ => VK_SUCCESS }

/-- As `plainDriver`, but every `vkBindBufferMemory` returns `VK_ERROR_OUT_OF_DEVICE_MEMORY`
(`-2`). -/
def bindFailsDriver : Driver :=
  { plainDriver with
    result := fun call =>
      match call with
      | .vkBindBufferMemory .. => -2
      | _ => VK_SUCCESS }

/-- As `plainDriver`, but the shader file holds 5 bytes; every call returns `VK_SUCCESS`. -/
def oddShaderDriver : Driver :=
  { plainDriver with shaderFile := some [3, 2, 35, 7, 0] }

/-- The shader file holds 5 bytes and `vkCreateShaderModule` returns `VK_ERROR_UNKNOWN`
(`-13`). -/
def oddShaderRejectedDriver : Driver :=
  { plainDriver with
    shaderFile := some [3, 2, 35, 7, 0]
    result := fun call =>
      match call with
      | .vkCreateShaderModule .. => -13
      | _ => VK_SUCCESS }

/-- As `plainDriver`, but `vkQueueSubmit` returns `VK_ERROR_DEVICE_LOST` (`-4`). -/
def submitFailsDriver : Driver :=
  { plainDriver with
    result := fun call =>
      match call with
      | .vkQueueSubmit .. => -4
      | _ => VK_SUCCESS }

/-- As `plainDriver`, but `vkQueueWaitIdle` returns `VK_ERROR_DEVICE_LOST` (`-4`). -/
def waitFailsDriver : Driver :=
  { plainDriver with
    result := fun call =>
      match call with
      | .vkQueueWaitIdle => -4
      | _ => VK_SUCCESS }

/-- As `plainDriver`, but `vkMapMemory` returns `VK_ERROR_MEMORY_MAP_FAILED` (`-5`). -/
def mapFailsDriver : Driver :=
  { plainDriver with
    result := fun call =>
      match call with
      | .vkMapMemory .. => -5
      | _ => VK_SUCCESS }

/-! ## Physical device selection: properties -/

theorem getComputeQueueFamilyIndexLoop_isSome (queueFamilyProperties : List VkQueueFamilyProperties) :
    ∀ fuel i, (getComputeQueueFamilyIndexLoop queueFamilyProperties fuel i).isSome = true := by
  intro fuel
  induction fuel with
  | zero => intro i; rfl
  | succ fuel ih =>
    intro i
    unfold getComputeQueueFamilyIndexLoop
    split
    · split
      · rfl
      · exact ih _
    · rfl

/-- Once the fuel covers the families not yet passed, more fuel does not change the result: the
out-of-fuel case of the loop is never the one that answers. -/
theorem getComputeQueueFamilyIndexLoop_fuel (queueFamilyProperties : List VkQueueFamilyProperties) :
    ∀ fuel fuel2 i, queueFamilyProperties.length < fuel + i →
      queueFamilyProperties.length < fuel2 + i →
      getComputeQueueFamilyIndexLoop queueFamilyProperties fuel i
        = getComputeQueueFamilyIndexLoop queueFamilyProperties fuel2 i := by
  intro fuel
  induction fuel with
  | zero =>
    intro fuel2 i h _
    cases fuel2 with
    | zero => rfl
    | succ fuel2 =>
      have hi : ¬ i < queueFamilyProperties.length := by omega
      simp [getComputeQueueFamilyIndexLoop, hi]
  | succ fuel ih =>
    intro fuel2 i h h2
    cases fuel2 with
    | zero =>
      have hi : ¬ i < queueFamilyProperties.length := by omega
      simp [getComputeQueueFamilyIndexLoop, hi]
    | succ fuel2 =>
      unfold getComputeQueueFamilyIndexLoop
      split
      · split
        · rfl
        · exact ih fuel2 (i + 1 + 1) (by omega) (by omega)
      · rfl

theorem getComputeQueueFamilyIndex_isSome (drv : Driver) (physicalDevice : VkPhysicalDevice) :
    (getComputeQueueFamilyIndex drv physicalDevice).isSome = true :=
  getComputeQueueFamilyIndexLoop_isSome _ _ _

theorem isPhysicalDeviceSuitable_eq_true (drv : Driver) (device : VkPhysicalDevice) :
    isPhysicalDeviceSuitable drv device = true := by
  simp [isPhysicalDeviceSuitable, getComputeQueueFamilyIndex_isSome,
    isPhysicalDeviceExtensionSupportAdequate, requiredDeviceExtensions]

/-- C1, at its failing input.  The driver lists device `7` (one graphics-only queue family) before
device `8` (one compute family).  Device `7` does not qualify and device `8` does, yet
`assignPhysicalDevice` selects device `7`: `isPhysicalDeviceSuitable` accepts every device, since
`getComputeQueueFamilyIndex` never returns an empty optional. -/
theorem assignPhysicalDevice_selects_unqualified_device :
    ¬ deviceQualifies graphicsThenComputeDriver 7 ∧
    deviceQualifies graphicsThenComputeDriver 8 ∧
    assignPhysicalDevice graphicsThenComputeDriver {}
      = .ok { physicalDevice := 7, computeQueueFamilyIndex := 0, calls := [] } ∧
    ∀ (drv : Driver) (device : VkPhysicalDevice), isPhysicalDeviceSuitable drv device = true :=
  ⟨by decide, by decide, by decide, isPhysicalDeviceSuitable_eq_true⟩

/-- C2, at its failing input.  The only device, `7`, has a single graphics-only queue family, so
no listed device qualifies; `assignPhysicalDevice` does not throw: it returns with device `7`
selected and queue family index `0` stored. -/
theorem assignPhysicalDevice_succeeds_without_qualifying_device :
    (∀ device ∈ graphicsOnlyDriver.physicalDevices, ¬ deviceQualifies graphicsOnlyDriver device) ∧
    assignPhysicalDevice graphicsOnlyDriver {}
      = .ok { physicalDevice := 7, computeQueueFamilyIndex := 0, calls := [] } :=
  ⟨by decide, by decide⟩

/-- C3, at its failing input.  Device `7` reports a transfer-only family (flags `4`) at index `0`
and a compute family at index `1`.  `assignPhysicalDevice` succeeds and stores index `0`, whose
family lacks the compute bit. -/
theorem assignPhysicalDevice_stores_non_compute_family :
    assignPhysicalDevice transferThenComputeDriver {}
      = .ok { physicalDevice := 7, computeQueueFamilyIndex := 0, calls := [] } ∧
    (transferThenComputeDriver.queueFamilyProperties 7)[0]? = some ⟨4⟩ ∧
    ¬ (⟨4⟩ : VkQueueFamilyProperties).hasCompute :=
  ⟨by decide, by decide, by decide⟩

/-- C4, at its failing inputs.  With families graphics-only, compute, compute the smallest
compute-capable index is `1`, and `getComputeQueueFamilyIndex` returns `2`: the counter is
advanced twice per round, so odd indices are never examined.  With families transfer-only, compute
the smallest compute-capable index is again `1`, and the function returns `0`. -/
theorem getComputeQueueFamilyIndex_skips_odd_indices :
    (computeAtOneAndTwoDriver.queueFamilyProperties 7)[1]? = some ⟨2⟩ ∧
    (⟨2⟩ : VkQueueFamilyProperties).hasCompute ∧
    ¬ (⟨1⟩ : VkQueueFamilyProperties).hasCompute ∧
    getComputeQueueFamilyIndex computeAtOneAndTwoDriver 7 = some 2 ∧
    getComputeQueueFamilyIndex transferThenComputeDriver 7 = some 0 :=
  ⟨by decide, by decide, by decide, by decide, by decide⟩

/-- C5, at its failing inputs.  For a device with no queue family, and for a device whose only
family is graphics-only, `getComputeQueueFamilyIndex` returns an optional that holds `0`; and for
no driver and no device does it return an empty optional. -/
theorem getComputeQueueFamilyIndex_never_empty :
    getComputeQueueFamilyIndex noFamilyDriver 7 = some 0 ∧
    getComputeQueueFamilyIndex graphicsOnlyDriver 7 = some 0 ∧
    ∀ (drv : Driver) (physicalDevice : VkPhysicalDevice),
      (getComputeQueueFamilyIndex drv physicalDevice).isSome = true :=
  ⟨by decide, by decide, getComputeQueueFamilyIndex_isSome⟩

/-! ## Device memory: selection of the memory type -/

theorem VK_ASSERT_SUCCESS_app (result : Int) (message : String) (app : App) :
    (VK_ASSERT_SUCCESS result message app).app = app := by
  unfold VK_ASSERT_SUCCESS
  split <;> rfl

/-- The test the loop of `createDeviceMemory` makes on index `i` is the qualification of type `i`,
for every index inside the table. -/
theorem memoryTypeQualifies_iff (memoryProperties : VkPhysicalDeviceMemoryProperties)
    (memorySize i : Nat) (hsize : 0 < memorySize) :
    memoryTypeQualifies memoryProperties memorySize i ↔
      i < memoryProperties.memoryTypes.length ∧
        memoryTypeSuits memoryProperties memorySize i = true := by
  constructor
  · rintro ⟨memoryType, heap, htype, hheap, hvisible, hcoherent, hfits⟩
    have hi : i < memoryProperties.memoryTypes.length := by
      rcases Nat.lt_or_ge i memoryProperties.memoryTypes.length with h | h
      · exact h
      · rw [List.getElem?_eq_none h] at htype; cases htype
    refine ⟨hi, ?_⟩
    simp [memoryTypeSuits, List.getD_eq_getElem?_getD, htype, hheap, hvisible, hcoherent, hfits]
  · rintro ⟨hi, hsuits⟩
    have htype : memoryProperties.memoryTypes[i]? = some memoryProperties.memoryTypes[i] :=
      List.getElem?_eq_getElem hi
    simp only [memoryTypeSuits, List.getD_eq_getElem?_getD, htype, Option.getD_some,
      Bool.and_eq_true, decide_eq_true_eq] at hsuits
    obtain ⟨⟨hvisible, hcoherent⟩, hfits⟩ := hsuits
    cases hheap : memoryProperties.memoryHeaps[memoryProperties.memoryTypes[i].heapIndex]? with
    | none =>
      rw [hheap] at hfits
      simp at hfits
      omega
    | some heap =>
      rw [hheap] at hfits
      exact ⟨_, heap, htype, hheap, hvisible, hcoherent, hfits⟩

/-- The index the loop of `createDeviceMemory` ends with, after `n` rounds. -/
theorem foldl_memoryTypeIndex (suits : Nat → Bool) (n : Nat) :
    let index := (List.range n).foldl (fun index i => if suits i then i else index)
      VK_MAX_MEMORY_TYPES
    (index = VK_MAX_MEMORY_TYPES ∧ ∀ i < n, suits i = false) ∨
      (index < n ∧ suits index = true ∧ ∀ j < n, suits j = true → j ≤ index) := by
  induction n with
  | zero => left; simp
  | succ n ih =>
    simp only [List.range_succ, List.foldl_append, List.foldl_cons, List.foldl_nil] at ih ⊢
    by_cases hn : suits n = true
    · right
      simp only [hn, if_true]
      exact ⟨by omega, trivial, fun j hj _ => by omega⟩
    · simp only [hn]
      rcases ih with ⟨h32, hnone⟩ | ⟨hlt, hsuits, hmax⟩
      · left
        refine ⟨by simpa using h32, fun i hi => ?_⟩
        rcases Nat.lt_succ_iff_lt_or_eq.mp hi with h | h
        · exact hnone i h
        · subst h; simpa using hn
      · right
        refine ⟨by simp; omega, by simpa using hsuits, fun j hj hjs => ?_⟩
        rcases Nat.lt_succ_iff_lt_or_eq.mp hj with h | h
        · simpa using hmax j h hjs
        · subst h; exact absurd hjs hn

/-- What `findMemoryTypeIndex` returns: the sentinel when no type of the table qualifies, and
otherwise the greatest qualifying index. -/
theorem findMemoryTypeIndex_spec (memoryProperties : VkPhysicalDeviceMemoryProperties)
    (memorySize : Nat) (hsize : 0 < memorySize) :
    (findMemoryTypeIndex memoryProperties memorySize = VK_MAX_MEMORY_TYPES ∧
        ∀ i, ¬ memoryTypeQualifies memoryProperties memorySize i) ∨
      (findMemoryTypeIndex memoryProperties memorySize < memoryProperties.memoryTypes.length ∧
        memoryTypeQualifies memoryProperties memorySize
          (findMemoryTypeIndex memoryProperties memorySize) ∧
        ∀ j, memoryTypeQualifies memoryProperties memorySize j →
          j ≤ findMemoryTypeIndex memoryProperties memorySize) := by
  rcases foldl_memoryTypeIndex (memoryTypeSuits memoryProperties memorySize)
      memoryProperties.memoryTypes.length with ⟨h32, hnone⟩ | ⟨hlt, hsuits, hmax⟩
  · left
    refine ⟨h32, fun i hq => ?_⟩
    obtain ⟨hi, hs⟩ := (memoryTypeQualifies_iff memoryProperties memorySize i hsize).mp hq
    rw [hnone i hi] at hs
    cases hs
  · right
    refine ⟨hlt, (memoryTypeQualifies_iff memoryProperties memorySize _ hsize).mpr ⟨hlt, hsuits⟩,
      fun j hq => ?_⟩
    obtain ⟨hj, hs⟩ := (memoryTypeQualifies_iff memoryProperties memorySize j hsize).mp hq
    exact hmax j hj hs

/-- C6, at its failing input.  Memory types `0` and `1` both qualify, so the first qualifying
index is `0`; `createDeviceMemory` passes index `1` to `vkAllocateMemory`.  The selection loop
lacks the `break` that ends the sibling first-match loops, so a later qualifying type overwrites
the first one. -/
theorem createDeviceMemory_not_lowest_index :
    memoryTypeQualifies (twoSuitableTypesDriver.memoryProperties 7) 2048 0 ∧
    (createDeviceMemory twoSuitableTypesDriver { physicalDevice := 7 }).app.calls
      = [.vkAllocateMemory 2048 1] ∧
    (createDeviceMemory twoSuitableTypesDriver { physicalDevice := 7 }).app.calls
      ≠ [.vkAllocateMemory 2048 0] :=
  ⟨⟨⟨6, 0⟩, ⟨4096⟩, rfl, rfl, by decide, by decide, by decide⟩, by decide, by decide⟩

/-- The extent of the missing `break`.  When the table has at most `VK_MAX_MEMORY_TYPES` types and
some type qualifies for 2048 bytes, `createDeviceMemory` issues exactly one call, `vkAllocateMemory`
of 2048 bytes, and the memory type index it passes is the greatest qualifying index, not the
first. -/
theorem createDeviceMemory_allocates_highest_index (drv : Driver) (app : App)
    (hcount : (drv.memoryProperties app.physicalDevice).memoryTypes.length ≤ VK_MAX_MEMORY_TYPES)
    (hsome : ∃ i, memoryTypeQualifies (drv.memoryProperties app.physicalDevice) 2048 i) :
    ∃ k, memoryTypeQualifies (drv.memoryProperties app.physicalDevice) 2048 k ∧
      (∀ j, memoryTypeQualifies (drv.memoryProperties app.physicalDevice) 2048 j → j ≤ k) ∧
      (createDeviceMemory drv app).app.calls = app.calls ++ [.vkAllocateMemory 2048 k] := by
  rcases findMemoryTypeIndex_spec (drv.memoryProperties app.physicalDevice) 2048 (by decide)
    with ⟨_, hnone⟩ | ⟨hlt, hq, hmax⟩
  · obtain ⟨i, hi⟩ := hsome
    exact absurd hi (hnone i)
  · refine ⟨_, hq, hmax, ?_⟩
    have hne : findMemoryTypeIndex (drv.memoryProperties app.physicalDevice) 2048
        ≠ VK_MAX_MEMORY_TYPES := by omega
    simp only [createDeviceMemory, if_neg hne, VK_ASSERT_SUCCESS_app, App.record]

theorem createDeviceMemory_allocates_highest_index_witness :
    ∃ k, memoryTypeQualifies (twoSuitableTypesDriver.memoryProperties 7) 2048 k ∧
      (∀ j, memoryTypeQualifies (twoSuitableTypesDriver.memoryProperties 7) 2048 j → j ≤ k) ∧
      (createDeviceMemory twoSuitableTypesDriver { physicalDevice := 7 }).app.calls
        = [] ++ [.vkAllocateMemory 2048 k] :=
  createDeviceMemory_allocates_highest_index twoSuitableTypesDriver { physicalDevice := 7 }
    (by decide) ⟨0, ⟨6, 0⟩, ⟨4096⟩, rfl, rfl, by decide, by decide, by decide⟩

/-- C7.  When no memory type of the table is at once host-visible, host-coherent and on a heap of
at least 2048 bytes, `createDeviceMemory` throws and leaves the trace as it was: no allocation is
issued.  And in every case it either throws that error with the trace unchanged, or it issues one
`vkAllocateMemory` of 2048 bytes whose memory type index qualifies. -/
theorem createDeviceMemory_fails_or_allocates_qualifying (drv : Driver) (app : App) :
    ((∀ i, ¬ memoryTypeQualifies (drv.memoryProperties app.physicalDevice) 2048 i) →
      createDeviceMemory drv app = .throw "Failed to find suitable memory!" app) ∧
    (createDeviceMemory drv app = .throw "Failed to find suitable memory!" app ∨
      ∃ k, memoryTypeQualifies (drv.memoryProperties app.physicalDevice) 2048 k ∧
        (createDeviceMemory drv app).app.calls = app.calls ++ [.vkAllocateMemory 2048 k]) := by
  rcases findMemoryTypeIndex_spec (drv.memoryProperties app.physicalDevice) 2048 (by decide)
    with ⟨h32, _⟩ | ⟨_, hq, _⟩
  · have hthrow : createDeviceMemory drv app = .throw "Failed to find suitable memory!" app := by
      simp only [createDeviceMemory, h32, if_true]
    exact ⟨fun _ => hthrow, Or.inl hthrow⟩
  · refine ⟨fun hnone => absurd hq (hnone _), ?_⟩
    by_cases h32 : findMemoryTypeIndex (drv.memoryProperties app.physicalDevice) 2048
        = VK_MAX_MEMORY_TYPES
    · left
      simp only [createDeviceMemory, h32, if_true]
    · right
      refine ⟨_, hq, ?_⟩
      simp only [createDeviceMemory, if_neg h32, VK_ASSERT_SUCCESS_app, App.record]

theorem createDeviceMemory_fails_or_allocates_qualifying_witness :
    (∀ i, ¬ memoryTypeQualifies (smallHeapDriver.memoryProperties 7) 2048 i) ∧
    createDeviceMemory smallHeapDriver { physicalDevice := 7 }
      = .throw "Failed to find suitable memory!" { physicalDevice := 7 } :=
  have hnone : ∀ i, ¬ memoryTypeQualifies (smallHeapDriver.memoryProperties 7) 2048 i := by
    intro i hq
    obtain ⟨hi, hs⟩ := (memoryTypeQualifies_iff _ 2048 i (by decide)).mp hq
    have hi2 : i < 2 := hi
    interval_cases i <;> revert hs <;> decide
  ⟨hnone, (createDeviceMemory_fails_or_allocates_qualifying smallHeapDriver
    { physicalDevice := 7 }).1 hnone⟩

/-! ## Construction and teardown -/

theorem VK_ASSERT_SUCCESS_eq_ok {result : Int} {message : String} {app app2 : App} :
    VK_ASSERT_SUCCESS result message app = .ok app2 ↔ result = VK_SUCCESS ∧ app2 = app := by
  unfold VK_ASSERT_SUCCESS
  split
  · simp_all
  · simp_all [eq_comm]

theorem Outcome.andThen_eq_ok {o : Outcome} {next : App → Outcome} {app : App} :
    o.andThen next = .ok app ↔ ∃ mid, o = .ok mid ∧ next mid = .ok app := by
  cases o <;> simp [Outcome.andThen]

theorem ite_throw_eq_ok {c : Prop} [Decidable c] {message : String} {app app2 : App}
    {o : Outcome} : (if c then Outcome.throw message app else o) = .ok app2 ↔ ¬ c ∧ o = .ok app2 := by
  split <;> simp [*]

theorem createVulkanInstance_ok {drv : Driver} {a b : App}
    (h : createVulkanInstance drv a = .ok b) :
    drv.result (.vkCreateInstance (getRequiredInstanceExtensionNames drv)
        (if drv.isValidationEnabled then drv.validationLayers.length else 0)) = VK_SUCCESS ∧
    b = a.record (.vkCreateInstance (getRequiredInstanceExtensionNames drv)
        (if drv.isValidationEnabled then drv.validationLayers.length else 0)) := by
  simp only [createVulkanInstance, ite_throw_eq_ok, VK_ASSERT_SUCCESS_eq_ok] at h
  exact h.2

theorem createDebugMessenger_ok {drv : Driver} {a b : App}
    (h : createDebugMessenger drv a = .ok b) :
    (drv.isValidationEnabled = true → drv.result .createDebugUtilsMessengerEXT = VK_SUCCESS) ∧
    b = { a with calls := a.calls ++
      (if drv.isValidationEnabled then [.createDebugUtilsMessengerEXT] else []) } := by
  unfold createDebugMessenger at h
  cases hv : drv.isValidationEnabled with
  | false =>
    simp only [hv, Bool.not_false, if_true, Outcome.ok.injEq] at h
    simp [← h]
  | true =>
    simp only [hv, Bool.not_true, Bool.false_eq_true, if_false, VK_ASSERT_SUCCESS_eq_ok] at h
    simp [h.1, h.2, App.record]

theorem assignPhysicalDevice_ok {drv : Driver} {a b : App}
    (h : assignPhysicalDevice drv a = .ok b) : b.calls = a.calls := by
  simp only [assignPhysicalDevice, ite_throw_eq_ok] at h
  obtain ⟨_, _, h⟩ := h
  split at h
  · injection h with h
    rw [← h]
  · cases h

theorem createLogicalDevice_ok {drv : Driver} {a b : App}
    (h : createLogicalDevice drv a = .ok b) :
    drv.result (.vkCreateDevice a.physicalDevice a.computeQueueFamilyIndex 1 deviceExtensions
        (if drv.isValidationEnabled then drv.validationLayers.length else 0)) = VK_SUCCESS ∧
    b = (a.record (.vkCreateDevice a.physicalDevice a.computeQueueFamilyIndex 1 deviceExtensions
        (if drv.isValidationEnabled then drv.validationLayers.length else 0))).record
          (.vkGetDeviceQueue a.computeQueueFamilyIndex 0) := by
  simp only [createLogicalDevice, Outcome.andThen_eq_ok, VK_ASSERT_SUCCESS_eq_ok] at h
  obtain ⟨_, ⟨r, rfl⟩, h⟩ := h
  injection h with h
  exact ⟨r, h.symm⟩

theorem createDeviceMemory_ok {drv : Driver} {a b : App}
    (h : createDeviceMemory drv a = .ok b) :
    ∃ memoryTypeIndex, drv.result (.vkAllocateMemory 2048 memoryTypeIndex) = VK_SUCCESS ∧
      b = a.record (.vkAllocateMemory 2048 memoryTypeIndex) := by
  simp only [createDeviceMemory, ite_throw_eq_ok, VK_ASSERT_SUCCESS_eq_ok] at h
  exact ⟨_, h.2⟩

theorem createStorageBuffers_ok {drv : Driver} {a b : App}
    (h : createStorageBuffers drv a = .ok b) :
    drv.result (.vkCreateBuffer .inputBuffer 1024 VK_BUFFER_USAGE_STORAGE_BUFFER_BIT
        VK_SHARING_MODE_EXCLUSIVE a.computeQueueFamilyIndex) = VK_SUCCESS ∧
    drv.result (.vkCreateBuffer .outputBuffer 1024 VK_BUFFER_USAGE_STORAGE_BUFFER_BIT
        VK_SHARING_MODE_EXCLUSIVE a.computeQueueFamilyIndex) = VK_SUCCESS ∧
    b = ((((a.record (.vkCreateBuffer .inputBuffer 1024 VK_BUFFER_USAGE_STORAGE_BUFFER_BIT
        VK_SHARING_MODE_EXCLUSIVE a.computeQueueFamilyIndex)).record
          (.vkBindBufferMemory .inputBuffer 0)).record
          (.vkCreateBuffer .outputBuffer 1024 VK_BUFFER_USAGE_STORAGE_BUFFER_BIT
            VK_SHARING_MODE_EXCLUSIVE a.computeQueueFamilyIndex)).record
          (.vkBindBufferMemory .outputBuffer 1024)) := by
  simp only [createStorageBuffers, Outcome.andThen_eq_ok, VK_ASSERT_SUCCESS_eq_ok] at h
  obtain ⟨_, ⟨r1, rfl⟩, _, ⟨r2, rfl⟩, h⟩ := h
  injection h with h
  exact ⟨r1, r2, h.symm⟩

theorem createShaderModule_ok {drv : Driver} {a b : App}
    (h : createShaderModule drv a = .ok b) :
    ∃ codeSize, drv.result (.vkCreateShaderModule codeSize) = VK_SUCCESS ∧
      b = a.record (.vkCreateShaderModule codeSize) := by
  unfold createShaderModule readLocalFile at h
  cases hfile : drv.shaderFile with
  | none => simp [hfile] at h
  | some code =>
    simp only [hfile, VK_ASSERT_SUCCESS_eq_ok] at h
    exact ⟨_, h⟩

theorem createDescriptorSets_ok {drv : Driver} {a b : App}
    (h : createDescriptorSets drv a = .ok b) :
    drv.result (.vkAllocateDescriptorSets 1) = VK_SUCCESS ∧
    b = (a.record (.vkAllocateDescriptorSets 1)).record (.vkUpdateDescriptorSets
      [ ⟨0, 0, 1, VK_DESCRIPTOR_TYPE_STORAGE_BUFFER, ⟨.inputBuffer, 0, VK_WHOLE_SIZE⟩⟩,
        ⟨1, 0, 1, VK_DESCRIPTOR_TYPE_STORAGE_BUFFER, ⟨.outputBuffer, 0, VK_WHOLE_SIZE⟩⟩ ]) := by
  simp only [createDescriptorSets, Outcome.andThen_eq_ok, VK_ASSERT_SUCCESS_eq_ok] at h
  obtain ⟨_, ⟨r, rfl⟩, h⟩ := h
  injection h with h
  exact ⟨r, h.symm⟩

theorem recordCommandBuffer_ok {drv : Driver} {a b : App}
    (h : recordCommandBuffer drv a = .ok b) :
    b = ((((a.record (.vkBeginCommandBuffer VK_COMMAND_BUFFER_USAGE_ONE_TIME_SUBMIT_BIT)).record
      (.vkCmdBindPipeline VK_PIPELINE_BIND_POINT_COMPUTE)).record
      (.vkCmdBindDescriptorSets VK_PIPELINE_BIND_POINT_COMPUTE 0 1)).record
      (.vkCmdDispatch 32 32 1)).record .vkEndCommandBuffer := by
  simp only [recordCommandBuffer, Outcome.andThen_eq_ok, VK_ASSERT_SUCCESS_eq_ok] at h
  obtain ⟨_, ⟨_, rfl⟩, _, h⟩ := h
  exact h

/-- A construction that returns leaves exactly the trace `constructTrace`, and the driver answered
every creating call of it with `VK_SUCCESS`. -/
theorem construct_ok_trace {drv : Driver} {app : App}
    (h : VulkanComputeApplication.construct drv = .ok app) :
    (∃ memoryTypeIndex codeSize, app.calls
      = constructTrace drv app.physicalDevice app.computeQueueFamilyIndex memoryTypeIndex codeSize) ∧
    ∀ call ∈ app.calls, call.creates.isSome = true → drv.result call = VK_SUCCESS := by
  simp only [VulkanComputeApplication.construct, runSteps, constructorSteps, List.foldl,
    Outcome.andThen_eq_ok] at h
  obtain ⟨a14, ⟨a13, ⟨a12, ⟨a11, ⟨a10, ⟨a9, ⟨a8, ⟨a7, ⟨a6, ⟨a5, ⟨a4, ⟨a3, ⟨a2, ⟨a1, ⟨a0, h0, h1⟩, h2⟩,
    h3⟩, h4⟩, h5⟩, h6⟩, h7⟩, h8⟩, h9⟩, h10⟩, h11⟩, h12⟩, h13⟩, h14⟩, h15⟩ := h
  injection h0 with h0
  subst h0
  obtain ⟨r1, rfl⟩ := createVulkanInstance_ok h1
  obtain ⟨r2, rfl⟩ := createDebugMessenger_ok h2
  have hcalls := assignPhysicalDevice_ok h3
  obtain ⟨r4, rfl⟩ := createLogicalDevice_ok h4
  obtain ⟨memoryTypeIndex, r5, rfl⟩ := createDeviceMemory_ok h5
  obtain ⟨r6, r6b, rfl⟩ := createStorageBuffers_ok h6
  obtain ⟨codeSize, r7, rfl⟩ := createShaderModule_ok h7
  obtain ⟨r8, rfl⟩ := VK_ASSERT_SUCCESS_eq_ok.mp h8
  obtain ⟨r9, rfl⟩ := VK_ASSERT_SUCCESS_eq_ok.mp h9
  obtain ⟨r10, rfl⟩ := VK_ASSERT_SUCCESS_eq_ok.mp h10
  obtain ⟨r11, rfl⟩ := VK_ASSERT_SUCCESS_eq_ok.mp h11
  obtain ⟨r12, rfl⟩ := createDescriptorSets_ok h12
  obtain ⟨r13, rfl⟩ := VK_ASSERT_SUCCESS_eq_ok.mp h13
  obtain ⟨r14, rfl⟩ := VK_ASSERT_SUCCESS_eq_ok.mp h14
  obtain rfl := recordCommandBuffer_ok h15
  clear h1 h2 h3 h4 h5 h6 h7 h8 h9 h10 h11 h12 h13 h14 h15
  simp only [App.record, List.nil_append] at hcalls r6 r6b r13
  constructor
  · refine ⟨memoryTypeIndex, codeSize, ?_⟩
    simp only [App.record, hcalls, constructTrace, List.append_assoc, List.cons_append,
      List.nil_append]
  · intro call hmem
    simp only [App.record, hcalls, List.append_assoc, List.cons_append, List.nil_append,
      List.mem_append, List.mem_cons, List.mem_singleton, List.not_mem_nil, or_false] at hmem
    cases hv : drv.isValidationEnabled with
    | false =>
      simp only [hv, Bool.false_eq_true, if_false, List.not_mem_nil, false_or] at hmem r1 r4
      rcases hmem with rfl | rfl | rfl | rfl | rfl | rfl | rfl | rfl | rfl | rfl | rfl | rfl |
        rfl | rfl | rfl | rfl | rfl | rfl | rfl | rfl | rfl | rfl <;>
        first
          | (intro _; assumption)
          | (intro hc; simp only [VkCall.creates, Option.isSome_none, Bool.false_eq_true] at hc)
    | true =>
      simp only [hv, if_true, List.mem_singleton] at hmem r1 r4
      have r2 := r2 hv
      rcases hmem with rfl | rfl | rfl | rfl | rfl | rfl | rfl | rfl | rfl | rfl | rfl | rfl |
        rfl | rfl | rfl | rfl | rfl | rfl | rfl | rfl | rfl | rfl | rfl <;>
        first
          | (intro _; assumption)
          | (intro hc; simp only [VkCall.creates, Option.isSome_none, Bool.false_eq_true] at hc)


theorem runSteps_throw (steps : List (App → Outcome)) (message : String) (app : App) :
    runSteps steps (.throw message app) = .throw message app := by
  induction steps with
  | nil => rfl
  | cons step steps ih => simpa [runSteps, Outcome.andThen] using ih

theorem runSteps_append (steps later : List (App → Outcome)) (start : Outcome) :
    runSteps (steps ++ later) start = runSteps later (runSteps steps start) := by
  simp [runSteps, List.foldl_append]

theorem releasedObjects_append (calls more : List VkCall) :
    releasedObjects (calls ++ more) = releasedObjects calls ++ releasedObjects more := by
  simp [releasedObjects, List.filterMap_append]

theorem releasedObjects_record (app : App) (call : VkCall) (hcall : call.releases = none) :
    releasedObjects (app.record call).calls = releasedObjects app.calls := by
  simp [App.record, releasedObjects, List.filterMap_append, hcall]

theorem releasedObjects_assert (result : Int) (message : String) (app : App) (call : VkCall)
    (hcall : call.releases = none) :
    releasedObjects (VK_ASSERT_SUCCESS result message (app.record call)).app.calls
      = releasedObjects app.calls := by
  rw [VK_ASSERT_SUCCESS_app, releasedObjects_record app call hcall]

theorem releasedObjects_andThen (o : Outcome) (next : App → Outcome)
    (hnext : ∀ app, releasedObjects (next app).app.calls = releasedObjects app.calls) :
    releasedObjects (o.andThen next).app.calls = releasedObjects o.app.calls := by
  cases o with
  | ok app => exact hnext app
  | throw message app => rfl

/-- No statement of the constructor issues a releasing call. -/
theorem constructorSteps_release_nothing (drv : Driver) :
    ∀ step ∈ constructorSteps drv, ∀ app : App,
      releasedObjects (step app).app.calls = releasedObjects app.calls := by
  intro step hstep app
  simp only [constructorSteps, List.mem_cons, List.mem_singleton, List.not_mem_nil, or_false]
    at hstep
  rcases hstep with rfl | rfl | rfl | rfl | rfl | rfl | rfl | rfl | rfl | rfl | rfl | rfl | rfl |
    rfl | rfl
  · simp only [createVulkanInstance]
    split
    · rfl
    · exact releasedObjects_assert _ _ _ _ rfl
  · simp only [createDebugMessenger]
    split
    · rfl
    · exact releasedObjects_assert _ _ _ _ rfl
  · simp only [assignPhysicalDevice]
    split
    · rfl
    · split
      · rfl
      · split <;> rfl
  · simp only [createLogicalDevice]
    refine (releasedObjects_andThen _ _ ?_).trans ?_
    · intro app
      exact releasedObjects_record _ _ rfl
    · exact releasedObjects_assert _ _ _ _ rfl
  · simp only [createDeviceMemory]
    split
    · rfl
    · exact releasedObjects_assert _ _ _ _ rfl
  · simp only [createStorageBuffers]
    refine (releasedObjects_andThen _ _ ?_).trans ?_
    · intro app
      refine (releasedObjects_andThen _ _ ?_).trans ?_
      · intro app
        exact releasedObjects_record _ _ rfl
      · refine (releasedObjects_assert _ _ _ _ ?_).trans ?_
        · rfl
        · exact releasedObjects_record _ _ rfl
    · exact releasedObjects_assert _ _ _ _ rfl
  · simp only [createShaderModule]
    split
    · rfl
    · exact releasedObjects_assert _ _ _ _ rfl
  · exact releasedObjects_assert _ _ _ _ rfl
  · exact releasedObjects_assert _ _ _ _ rfl
  · exact releasedObjects_assert _ _ _ _ rfl
  · exact releasedObjects_assert _ _ _ _ rfl
  · simp only [createDescriptorSets]
    refine (releasedObjects_andThen _ _ ?_).trans ?_
    · intro app
      exact releasedObjects_record _ _ rfl
    · exact releasedObjects_assert _ _ _ _ rfl
  · exact releasedObjects_assert _ _ _ _ rfl
  · exact releasedObjects_assert _ _ _ _ rfl
  · simp only [recordCommandBuffer]
    refine (releasedObjects_andThen _ _ ?_).trans ?_
    · intro app
      refine (releasedObjects_assert _ _ _ _ ?_).trans ?_
      · rfl
      refine (releasedObjects_record _ _ ?_).trans ?_
      · rfl
      refine (releasedObjects_record _ _ ?_).trans ?_
      · rfl
      exact releasedObjects_record _ _ rfl
    · exact releasedObjects_assert _ _ _ _ rfl

theorem runSteps_release_nothing (steps : List (App → Outcome))
    (hsteps : ∀ step ∈ steps, ∀ app : App,
      releasedObjects (step app).app.calls = releasedObjects app.calls) (start : Outcome) :
    releasedObjects (runSteps steps start).app.calls = releasedObjects start.app.calls := by
  induction steps generalizing start with
  | nil => rfl
  | cons step steps ih =>
    have h := ih (fun s hs => hsteps s (List.mem_cons_of_mem _ hs)) (start.andThen step)
    simp only [runSteps, List.foldl_cons] at h ⊢
    rw [h, releasedObjects_andThen _ _ (hsteps step (List.mem_cons_self _ _))]

theorem liveObjects_of_released_nil (drv : Driver) (calls : List VkCall)
    (h : releasedObjects calls = []) : liveObjects drv calls = createdObjects drv calls := by
  simp [liveObjects, h]


theorem createdObjects_of_success (drv : Driver) (calls : List VkCall)
    (h : ∀ call ∈ calls, call.creates.isSome = true → drv.result call = VK_SUCCESS) :
    createdObjects drv calls = calls.filterMap VkCall.creates := by
  induction calls with
  | nil => rfl
  | cons call calls ih =>
    have hrest := ih fun c hc => h c (List.mem_cons_of_mem _ hc)
    have hcall := h call (List.mem_cons_self _ _)
    unfold createdObjects at hrest ⊢
    cases hcreates : call.creates with
    | none => simp [List.filterMap_cons, hcreates, hrest]
    | some object =>
      rw [hcreates] at hcall
      simp [List.filterMap_cons, hcreates, hrest, hcall rfl]

/-- The objects a returned construction created, in creation order. -/
theorem construct_ok_created {drv : Driver} {app : App}
    (h : VulkanComputeApplication.construct drv = .ok app) :
    createdObjects drv app.calls =
      [.vkInstance] ++ (if drv.isValidationEnabled then [.debugMessenger] else []) ++
      [.logicalDevice, .deviceMemory, .inputBuffer, .outputBuffer, .shaderModule,
        .descriptorSetLayout, .pipelineLayout, .pipeline, .descriptorPool, .descriptorSet,
        .commandPool, .commandBuffer] := by
  obtain ⟨⟨memoryTypeIndex, codeSize, hcalls⟩, hsuccess⟩ := construct_ok_trace h
  rw [createdObjects_of_success drv app.calls hsuccess, hcalls]
  cases hv : drv.isValidationEnabled <;>
    simp [constructTrace, hv, List.filterMap_cons, VkCall.creates]

/-- The objects the destructor releases after a returned construction, in release order. -/
theorem destruct_released {drv : Driver} {app : App}
    (h : VulkanComputeApplication.construct drv = .ok app) :
    releasedObjects (VulkanComputeApplication.destruct drv app).calls =
      [.commandBuffer, .commandPool, .descriptorPool, .pipeline, .pipelineLayout,
        .descriptorSetLayout, .shaderModule, .inputBuffer, .outputBuffer, .deviceMemory,
        .logicalDevice] ++ (if drv.isValidationEnabled then [.debugMessenger] else []) ++
      [.vkInstance] := by
  have hnone : releasedObjects app.calls = [] := by
    have := runSteps_release_nothing (constructorSteps drv) (constructorSteps_release_nothing drv)
      (.ok {})
    rw [show runSteps (constructorSteps drv) (.ok {}) = .ok app from h] at this
    exact this
  cases hv : drv.isValidationEnabled <;>
    simp [VulkanComputeApplication.destruct, destroyCommandBuffer, destroyCommandPool,
      destroyDescriptorSets, destroyDescriptorPools, destroyPipeline, destroyPipelineLayout,
      destroyDescriptorSetLayout, destroyShaderModule, destroyStorageBuffers, destroyDeviceMemory,
      destroyLogicalDevice, destroyDebugMessenger, destroyVulkanInstance, App.record, hv,
      releasedObjects_append, hnone] <;> rfl

/-- C8.  After a construction that returns, the trace holds one allocation, of 2048 bytes, and two
buffers: the input buffer of 1024 bytes bound at offset 0 and the output buffer of 1024 bytes bound
at the offset that equals the length of the input buffer.  The byte ranges of the two buffers do
not overlap and end inside the allocation. -/
theorem storage_buffers_tile_arena (drv : Driver) (app : App)
    (h : VulkanComputeApplication.construct drv = .ok app) :
    ∃ arenaSize inputOffset inputLength outputOffset outputLength,
      allocationSizes app.calls = [arenaSize] ∧
      bufferSizes app.calls = [(.inputBuffer, inputLength), (.outputBuffer, outputLength)] ∧
      bufferOffsets app.calls = [(.inputBuffer, inputOffset), (.outputBuffer, outputOffset)] ∧
      arenaSize = 2048 ∧ inputLength = 1024 ∧ outputLength = 1024 ∧
      inputOffset = 0 ∧ outputOffset = inputLength ∧
      inputOffset + inputLength ≤ outputOffset ∧ outputOffset + outputLength ≤ arenaSize := by
  obtain ⟨⟨memoryTypeIndex, codeSize, hcalls⟩, _⟩ := construct_ok_trace h
  refine ⟨2048, 0, 1024, 1024, 1024, ?_, ?_, ?_, rfl, rfl, rfl, rfl, rfl, by decide, by decide⟩
  all_goals
    rw [hcalls]
    cases hv : drv.isValidationEnabled <;>
      simp [constructTrace, hv, allocationSizes, bufferSizes, bufferOffsets, List.filterMap_cons]

theorem storage_buffers_tile_arena_witness :
    VulkanComputeApplication.construct plainDriver
      = .ok (VulkanComputeApplication.construct plainDriver).app ∧
    ∃ arenaSize inputOffset inputLength outputOffset outputLength,
      allocationSizes (VulkanComputeApplication.construct plainDriver).app.calls = [arenaSize] ∧
      bufferSizes (VulkanComputeApplication.construct plainDriver).app.calls
        = [(.inputBuffer, inputLength), (.outputBuffer, outputLength)] ∧
      bufferOffsets (VulkanComputeApplication.construct plainDriver).app.calls
        = [(.inputBuffer, inputOffset), (.outputBuffer, outputOffset)] ∧
      arenaSize = 2048 ∧ inputLength = 1024 ∧ outputLength = 1024 ∧
      inputOffset = 0 ∧ outputOffset = inputLength ∧
      inputOffset + inputLength ≤ outputOffset ∧ outputOffset + outputLength ≤ arenaSize :=
  ⟨by decide, storage_buffers_tile_arena plainDriver _ (by decide)⟩

theorem AddsOnly.refl (P : VkCall → Prop) (app : App) : AddsOnly P app app :=
  ⟨[], by simp, by simp⟩

theorem AddsOnly.trans {P : VkCall → Prop} {a b c : App} (hab : AddsOnly P a b)
    (hbc : AddsOnly P b c) : AddsOnly P a c := by
  obtain ⟨calls, hcalls, hP⟩ := hab
  obtain ⟨more, hmore, hQ⟩ := hbc
  refine ⟨calls ++ more, by rw [hmore, hcalls, List.append_assoc], fun call hcall => ?_⟩
  rcases List.mem_append.mp hcall with h | h
  · exact hP call h
  · exact hQ call h

theorem AddsOnly.record {P : VkCall → Prop} (app : App) (call : VkCall) (hcall : P call) :
    AddsOnly P app (app.record call) :=
  ⟨[call], rfl, by simpa using hcall⟩

theorem AddsOnly.assert {P : VkCall → Prop} (result : Int) (message : String) (app : App)
    (call : VkCall) (hcall : P call) :
    AddsOnly P app (VK_ASSERT_SUCCESS result message (app.record call)).app := by
  rw [VK_ASSERT_SUCCESS_app]
  exact AddsOnly.record app call hcall

theorem AddsOnly.andThen {P : VkCall → Prop} {app : App} {o : Outcome} {next : App → Outcome}
    (ho : AddsOnly P app o.app) (hnext : ∀ mid, AddsOnly P mid (next mid).app) :
    AddsOnly P app (o.andThen next).app := by
  cases o with
  | ok mid => exact ho.trans (hnext mid)
  | throw message mid => exact ho

/-- Every object a constructor statement creates is attributed to the position of that statement
by `Handle.createdBy`. -/
theorem constructorSteps_createdBy (drv : Driver) (k : Nat) (step : App → Outcome)
    (hstep : (constructorSteps drv)[k]? = some step) (app : App) :
    AddsOnly (fun call => ∀ object, call.creates = some object → object.createdBy = k)
      app (step app).app := by
  have hk : k < 15 := by
    rcases Nat.lt_or_ge k 15 with hk | hk
    · exact hk
    · rw [List.getElem?_eq_none (by simpa [constructorSteps] using hk)] at hstep; cases hstep
  have hcreates : ∀ (call : VkCall) (target : Handle), call.creates = some target →
      (∀ object, call.creates = some object → object.createdBy = target.createdBy) := by
    intro call target h object hobject
    rw [h] at hobject
    cases hobject
    rfl
  have hnone : ∀ (call : VkCall), call.creates = none →
      (∀ object, call.creates = some object → object.createdBy = k) := by
    intro call h object hobject
    rw [h] at hobject
    cases hobject
  interval_cases k <;> simp only [constructorSteps, List.getElem?_cons_zero,
    List.getElem?_cons_succ, Option.some.injEq] at hstep <;> subst hstep
  · simp only [createVulkanInstance]
    split
    · exact AddsOnly.refl _ _
    · exact AddsOnly.assert _ _ _ _ (hcreates _ .vkInstance rfl)
  · simp only [createDebugMessenger]
    split
    · exact AddsOnly.refl _ _
    · exact AddsOnly.assert _ _ _ _ (hcreates _ .debugMessenger rfl)
  · simp only [assignPhysicalDevice]
    split
    · exact AddsOnly.refl _ _
    · split
      · exact AddsOnly.refl _ _
      · split <;> exact AddsOnly.refl _ _
  · simp only [createLogicalDevice]
    refine AddsOnly.andThen (AddsOnly.assert _ _ _ _ (hcreates _ .logicalDevice rfl)) ?_
    intro mid
    exact AddsOnly.record _ _ (hnone _ rfl)
  · simp only [createDeviceMemory]
    split
    · exact AddsOnly.refl _ _
    · exact AddsOnly.assert _ _ _ _ (hcreates _ .deviceMemory rfl)
  · simp only [createStorageBuffers]
    refine AddsOnly.andThen (AddsOnly.assert _ _ _ _ (hcreates _ .inputBuffer rfl)) ?_
    intro mid
    refine AddsOnly.andThen ?_ ?_
    · refine AddsOnly.trans (AddsOnly.record _ _ ?_) (AddsOnly.assert _ _ _ _ ?_)
      · exact hnone _ rfl
      · exact hcreates _ .outputBuffer rfl
    · intro mid
      exact AddsOnly.record _ _ (hnone _ rfl)
  · simp only [createShaderModule]
    split
    · exact AddsOnly.refl _ _
    · exact AddsOnly.assert _ _ _ _ (hcreates _ .shaderModule rfl)
  · exact AddsOnly.assert _ _ _ _ (hcreates _ .descriptorSetLayout rfl)
  · exact AddsOnly.assert _ _ _ _ (hcreates _ .pipelineLayout rfl)
  · exact AddsOnly.assert _ _ _ _ (hcreates _ .pipeline rfl)
  · exact AddsOnly.assert _ _ _ _ (hcreates _ .descriptorPool rfl)
  · simp only [createDescriptorSets]
    refine AddsOnly.andThen (AddsOnly.assert _ _ _ _ (hcreates _ .descriptorSet rfl)) ?_
    intro mid
    exact AddsOnly.record _ _ (hnone _ rfl)
  · exact AddsOnly.assert _ _ _ _ (hcreates _ .commandPool rfl)
  · exact AddsOnly.assert _ _ _ _ (hcreates _ .commandBuffer rfl)
  · simp only [recordCommandBuffer]
    refine AddsOnly.andThen (AddsOnly.assert _ _ _ _ (hnone _ rfl)) ?_
    intro mid
    refine AddsOnly.trans (AddsOnly.record _ _ ?_) (AddsOnly.trans (AddsOnly.record _ _ ?_)
      (AddsOnly.trans (AddsOnly.record _ _ ?_) (AddsOnly.assert _ _ _ _ ?_)))
    all_goals exact hnone _ rfl

/-- C9 as stated fails.  On `plainDriver` the construction returns; the destructor releases the
input buffer before the output buffer, while the reverse of the creation order has the output
buffer first. -/
theorem destruct_not_reverse_of_creation :
    (VulkanComputeApplication.construct plainDriver).isOk = true ∧
    releasedObjects (VulkanComputeApplication.destruct plainDriver
        (VulkanComputeApplication.construct plainDriver).app).calls
      = [.commandBuffer, .commandPool, .descriptorPool, .pipeline, .pipelineLayout,
          .descriptorSetLayout, .shaderModule, .inputBuffer, .outputBuffer, .deviceMemory,
          .logicalDevice, .debugMessenger, .vkInstance] ∧
    ((createdObjects plainDriver (VulkanComputeApplication.construct plainDriver).app.calls).filter
        fun object => object ≠ .descriptorSet).reverse
      = [.commandBuffer, .commandPool, .descriptorPool, .pipeline, .pipelineLayout,
          .descriptorSetLayout, .shaderModule, .outputBuffer, .inputBuffer, .deviceMemory,
          .logicalDevice, .debugMessenger, .vkInstance] ∧
    releasedObjects (VulkanComputeApplication.destruct plainDriver
        (VulkanComputeApplication.construct plainDriver).app).calls
      ≠ ((createdObjects plainDriver
          (VulkanComputeApplication.construct plainDriver).app.calls).filter
        fun object => object ≠ .descriptorSet).reverse :=
  ⟨by decide, by decide, by decide, by decide⟩

/-- C9, amended.  After a construction that returns, the destructor releases every created object
other than the descriptor set exactly once, and the statements that created the released objects,
read along the release sequence, are the creating statements in exactly reverse order (the two
buffers are made by one statement, `createStorageBuffers`). -/
theorem destruct_reverses_creation_steps (drv : Driver) (app : App)
    (h : VulkanComputeApplication.construct drv = .ok app) :
    (releasedObjects (VulkanComputeApplication.destruct drv app).calls).map Handle.createdBy
      = (((createdObjects drv app.calls).filter fun object => object ≠ .descriptorSet).reverse).map
          Handle.createdBy ∧
    (releasedObjects (VulkanComputeApplication.destruct drv app).calls).Perm
      ((createdObjects drv app.calls).filter fun object => object ≠ .descriptorSet) ∧
    (releasedObjects (VulkanComputeApplication.destruct drv app).calls).Nodup := by
  rw [destruct_released h, construct_ok_created h]
  cases drv.isValidationEnabled <;> decide

theorem destruct_reverses_creation_steps_witness :
    (releasedObjects (VulkanComputeApplication.destruct plainDriver
        (VulkanComputeApplication.construct plainDriver).app).calls).map Handle.createdBy
      = (((createdObjects plainDriver
          (VulkanComputeApplication.construct plainDriver).app.calls).filter
        fun object => object ≠ .descriptorSet).reverse).map Handle.createdBy ∧
    (releasedObjects (VulkanComputeApplication.destruct plainDriver
        (VulkanComputeApplication.construct plainDriver).app).calls).Perm
      ((createdObjects plainDriver (VulkanComputeApplication.construct plainDriver).app.calls).filter
        fun object => object ≠ .descriptorSet) ∧
    (releasedObjects (VulkanComputeApplication.destruct plainDriver
        (VulkanComputeApplication.construct plainDriver).app).calls).Nodup :=
  destruct_reverses_creation_steps plainDriver _ (by decide)

/-- C10 as stated fails.  On `pipelineFailsDriver` the constructor throws at `createPipeline`; the
trace it leaves holds no releasing call, and the nine objects created by the earlier statements
are all still live. -/
theorem construct_failure_leaves_objects_live :
    (∃ app, VulkanComputeApplication.construct pipelineFailsDriver
      = .throw "Failed to create compute pipeline!" app) ∧
    releasedObjects (VulkanComputeApplication.construct pipelineFailsDriver).app.calls = [] ∧
    liveObjects pipelineFailsDriver (VulkanComputeApplication.construct pipelineFailsDriver).app.calls
      = [.vkInstance, .debugMessenger, .logicalDevice, .deviceMemory, .inputBuffer, .outputBuffer,
          .shaderModule, .descriptorSetLayout, .pipelineLayout] :=
  ⟨⟨_, rfl⟩, by decide, by decide⟩

/-- C10, amended.  When the statements before position `k` of the constructor return and the
statement at position `k` throws, the constructor ends with that very exception and state: no
later statement runs, no releasing call has been issued, and every object created so far is still
live. -/
theorem construct_failure_releases_nothing (drv : Driver) (k : Nat) (step : App → Outcome)
    (before after : App) (message : String)
    (hstep : (constructorSteps drv)[k]? = some step)
    (hbefore : runSteps ((constructorSteps drv).take k) (.ok {}) = .ok before)
    (hthrow : step before = .throw message after) :
    VulkanComputeApplication.construct drv = .throw message after ∧
    releasedObjects after.calls = [] ∧
    liveObjects drv after.calls = createdObjects drv after.calls := by
  have hk : k < (constructorSteps drv).length := by
    rcases Nat.lt_or_ge k (constructorSteps drv).length with hk | hk
    · exact hk
    · rw [List.getElem?_eq_none hk] at hstep; cases hstep
  have hget : (constructorSteps drv)[k] = step := by
    rw [List.getElem?_eq_getElem hk] at hstep
    exact Option.some.inj hstep
  have hsplit : constructorSteps drv
      = (constructorSteps drv).take k ++ step :: (constructorSteps drv).drop (k + 1) := by
    rw [← hget, List.getElem_cons_drop _ _ hk, List.take_append_drop]
  have hconstruct : VulkanComputeApplication.construct drv = .throw message after := by
    unfold VulkanComputeApplication.construct
    rw [hsplit, runSteps_append, hbefore]
    show runSteps _ ((Outcome.ok before).andThen step) = _
    simp only [Outcome.andThen, hthrow, runSteps_throw]
  have hreleased : releasedObjects after.calls = [] := by
    have := runSteps_release_nothing (constructorSteps drv) (constructorSteps_release_nothing drv)
      (.ok {})
    rw [show runSteps (constructorSteps drv) (.ok {}) = .throw message after from hconstruct]
      at this
    exact this
  exact ⟨hconstruct, hreleased, liveObjects_of_released_nil drv _ hreleased⟩

theorem construct_failure_releases_nothing_witness :
    VulkanComputeApplication.construct pipelineFailsDriver
      = .throw "Failed to create compute pipeline!"
          (createPipeline pipelineFailsDriver
            (runSteps ((constructorSteps pipelineFailsDriver).take 9) (.ok {})).app).app ∧
    releasedObjects (createPipeline pipelineFailsDriver
      (runSteps ((constructorSteps pipelineFailsDriver).take 9) (.ok {})).app).app.calls = [] ∧
    liveObjects pipelineFailsDriver (createPipeline pipelineFailsDriver
        (runSteps ((constructorSteps pipelineFailsDriver).take 9) (.ok {})).app).app.calls
      = createdObjects pipelineFailsDriver (createPipeline pipelineFailsDriver
        (runSteps ((constructorSteps pipelineFailsDriver).take 9) (.ok {})).app).app.calls :=
  construct_failure_releases_nothing pipelineFailsDriver 9 (createPipeline pipelineFailsDriver)
    (runSteps ((constructorSteps pipelineFailsDriver).take 9) (.ok {})).app _
    "Failed to create compute pipeline!" rfl (by decide) (by decide)

/-! ## Checked and unchecked results -/

/-- C11, at its failing input.  On `bindFailsDriver` both `vkBindBufferMemory` calls return an
error.  The constructor issues both calls, does not throw, and runs every later statement: the
trace goes on to the creation of the shader module and ends with `vkEndCommandBuffer`. -/
theorem construct_ignores_bind_failure :
    bindFailsDriver.result (.vkBindBufferMemory .inputBuffer 0) ≠ VK_SUCCESS ∧
    bindFailsDriver.result (.vkBindBufferMemory .outputBuffer 1024) ≠ VK_SUCCESS ∧
    VkCall.vkBindBufferMemory .inputBuffer 0
      ∈ (VulkanComputeApplication.construct bindFailsDriver).app.calls ∧
    VkCall.vkBindBufferMemory .outputBuffer 1024
      ∈ (VulkanComputeApplication.construct bindFailsDriver).app.calls ∧
    (VulkanComputeApplication.construct bindFailsDriver).isOk = true ∧
    (VulkanComputeApplication.construct bindFailsDriver).app.calls
      = constructTrace bindFailsDriver 7 0 0 4 :=
  ⟨by decide, by decide, by decide, by decide, by decide, by decide⟩

/-! ## Submission -/

/-- C13.  When submit, idle-wait and map all succeed, `submitComputeQueue` returns after issuing
exactly: one `vkQueueSubmit` of one command buffer with no wait and no signal semaphore,
`vkQueueWaitIdle`, `vkMapMemory` of bytes 0 to 2048, `vkUnmapMemory`.  When the submit fails, or
the idle-wait fails, it throws before any map.  When the map fails it throws and issues no unmap.
In every case the calls it adds are an initial part of that sequence, a map is only issued after a
successful idle-wait, and a normal return has issued the unmap. -/
theorem submitComputeQueue_call_sequence (drv : Driver) (app : App) :
    (drv.result (.vkQueueSubmit 0 1 0) = VK_SUCCESS → drv.result .vkQueueWaitIdle = VK_SUCCESS →
      drv.result (.vkMapMemory 0 2048) = VK_SUCCESS →
      submitComputeQueue drv app = .ok { app with calls := app.calls ++ submitCalls }) ∧
    (drv.result (.vkQueueSubmit 0 1 0) ≠ VK_SUCCESS →
      submitComputeQueue drv app = .throw "Failed to submit compute queue!"
        { app with calls := app.calls ++ [.vkQueueSubmit 0 1 0] }) ∧
    (drv.result (.vkQueueSubmit 0 1 0) = VK_SUCCESS → drv.result .vkQueueWaitIdle ≠ VK_SUCCESS →
      submitComputeQueue drv app = .throw "Failed to wait for compute queue idle!"
        { app with calls := app.calls ++ [.vkQueueSubmit 0 1 0, .vkQueueWaitIdle] }) ∧
    (drv.result (.vkQueueSubmit 0 1 0) = VK_SUCCESS → drv.result .vkQueueWaitIdle = VK_SUCCESS →
      drv.result (.vkMapMemory 0 2048) ≠ VK_SUCCESS →
      submitComputeQueue drv app = .throw "Failed to map memory!"
        { app with calls := app.calls ++ [.vkQueueSubmit 0 1 0, .vkQueueWaitIdle,
          .vkMapMemory 0 2048] }) ∧
    (∃ added, (submitComputeQueue drv app).app.calls = app.calls ++ added ∧
      added <+: submitCalls ∧
      (VkCall.vkMapMemory 0 2048 ∈ added →
        drv.result (.vkQueueSubmit 0 1 0) = VK_SUCCESS ∧
        drv.result .vkQueueWaitIdle = VK_SUCCESS) ∧
      ((submitComputeQueue drv app).isOk = true → added = submitCalls)) ∧
    VulkanComputeApplication.run drv app = submitComputeQueue drv app := by
  by_cases hsubmit : drv.result (.vkQueueSubmit 0 1 0) = VK_SUCCESS
  · by_cases hwait : drv.result .vkQueueWaitIdle = VK_SUCCESS
    · by_cases hmap : drv.result (.vkMapMemory 0 2048) = VK_SUCCESS
      · have h : submitComputeQueue drv app
            = .ok { app with calls := app.calls ++ submitCalls } := by
          simp [submitComputeQueue, VK_ASSERT_SUCCESS, Outcome.andThen, App.record, submitCalls,
            hsubmit, hwait, hmap]
        refine ⟨fun _ _ _ => h, fun hn => absurd hsubmit hn, fun _ hn => absurd hwait hn,
          fun _ _ hn => absurd hmap hn, ⟨submitCalls, ?_, List.prefix_refl _, ?_, ?_⟩, rfl⟩
        · rw [h]; rfl
        · exact fun _ => ⟨hsubmit, hwait⟩
        · exact fun _ => rfl
      · have h : submitComputeQueue drv app = .throw "Failed to map memory!"
            { app with calls := app.calls ++ [.vkQueueSubmit 0 1 0, .vkQueueWaitIdle,
              .vkMapMemory 0 2048] } := by
          simp [submitComputeQueue, VK_ASSERT_SUCCESS, Outcome.andThen, App.record,
            hsubmit, hwait, hmap]
        refine ⟨fun _ _ hy => absurd hy hmap, fun hn => absurd hsubmit hn,
          fun _ hn => absurd hwait hn, fun _ _ _ => h,
          ⟨[.vkQueueSubmit 0 1 0, .vkQueueWaitIdle, .vkMapMemory 0 2048], ?_, ?_, ?_, ?_⟩, rfl⟩
        · rw [h]; rfl
        · exact ⟨[.vkUnmapMemory], rfl⟩
        · exact fun _ => ⟨hsubmit, hwait⟩
        · rw [h]; intro hok; cases hok
    · have h : submitComputeQueue drv app = .throw "Failed to wait for compute queue idle!"
          { app with calls := app.calls ++ [.vkQueueSubmit 0 1 0, .vkQueueWaitIdle] } := by
        simp [submitComputeQueue, VK_ASSERT_SUCCESS, Outcome.andThen, App.record, hsubmit, hwait]
      refine ⟨fun _ hy _ => absurd hy hwait, fun hn => absurd hsubmit hn, fun _ _ => h,
        fun _ hy _ => absurd hy hwait,
        ⟨[.vkQueueSubmit 0 1 0, .vkQueueWaitIdle], ?_, ?_, ?_, ?_⟩, rfl⟩
      · rw [h]; rfl
      · exact ⟨[.vkMapMemory 0 2048, .vkUnmapMemory], rfl⟩
      · intro hmem; simp at hmem
      · rw [h]; intro hok; cases hok
  · have h : submitComputeQueue drv app = .throw "Failed to submit compute queue!"
        { app with calls := app.calls ++ [.vkQueueSubmit 0 1 0] } := by
      simp [submitComputeQueue, VK_ASSERT_SUCCESS, Outcome.andThen, App.record, hsubmit]
    refine ⟨fun hy _ _ => absurd hy hsubmit, fun _ => h, fun hy _ => absurd hy hsubmit,
      fun hy _ _ => absurd hy hsubmit, ⟨[.vkQueueSubmit 0 1 0], ?_, ?_, ?_, ?_⟩, rfl⟩
    · rw [h]; rfl
    · exact ⟨[.vkQueueWaitIdle, .vkMapMemory 0 2048, .vkUnmapMemory], rfl⟩
    · intro hmem; simp at hmem
    · rw [h]; intro hok; cases hok

theorem submitComputeQueue_call_sequence_witness :
    submitComputeQueue plainDriver (VulkanComputeApplication.construct plainDriver).app
      = .ok { (VulkanComputeApplication.construct plainDriver).app with
          calls := (VulkanComputeApplication.construct plainDriver).app.calls ++ submitCalls } ∧
    submitComputeQueue submitFailsDriver (VulkanComputeApplication.construct submitFailsDriver).app
      = .throw "Failed to submit compute queue!"
          { (VulkanComputeApplication.construct submitFailsDriver).app with
            calls := (VulkanComputeApplication.construct submitFailsDriver).app.calls
              ++ [.vkQueueSubmit 0 1 0] } ∧
    submitComputeQueue waitFailsDriver (VulkanComputeApplication.construct waitFailsDriver).app
      = .throw "Failed to wait for compute queue idle!"
          { (VulkanComputeApplication.construct waitFailsDriver).app with
            calls := (VulkanComputeApplication.construct waitFailsDriver).app.calls
              ++ [.vkQueueSubmit 0 1 0, .vkQueueWaitIdle] } ∧
    submitComputeQueue mapFailsDriver (VulkanComputeApplication.construct mapFailsDriver).app
      = .throw "Failed to map memory!"
          { (VulkanComputeApplication.construct mapFailsDriver).app with
            calls := (VulkanComputeApplication.construct mapFailsDriver).app.calls
              ++ [.vkQueueSubmit 0 1 0, .vkQueueWaitIdle, .vkMapMemory 0 2048] } :=
  ⟨(submitComputeQueue_call_sequence plainDriver _).1 (by decide) (by decide) (by decide),
    (submitComputeQueue_call_sequence submitFailsDriver _).2.1 (by decide),
    (submitComputeQueue_call_sequence waitFailsDriver _).2.2.1 (by decide) (by decide),
    (submitComputeQueue_call_sequence mapFailsDriver _).2.2.2.1 (by decide) (by decide)
      (by decide)⟩

/-! ## Recording and descriptors -/

/-- C14.  Whenever recording begins without error, `recordCommandBuffer` issues the begin with the
one-time-submit flag, then exactly three commands in this order (bind pipeline at the compute bind
point; bind one descriptor set at first set 0 at the compute bind point; dispatch 32 by 32 by 1)
and then the end; it returns when begin and end both succeed.  In a construction that returns these
five calls are the last calls of the trace, no earlier call records anything, and the pipeline, the
descriptor set and the command buffer were created before them. -/
theorem recordCommandBuffer_records_once (drv : Driver) :
    (∀ app, drv.result (.vkBeginCommandBuffer VK_COMMAND_BUFFER_USAGE_ONE_TIME_SUBMIT_BIT)
        = VK_SUCCESS →
      (recordCommandBuffer drv app).app.calls = app.calls ++ recordingCalls ∧
      (drv.result .vkEndCommandBuffer = VK_SUCCESS →
        recordCommandBuffer drv app
          = .ok { app with calls := app.calls ++ recordingCalls })) ∧
    (∀ app, VulkanComputeApplication.construct drv = .ok app →
      ∃ earlier, app.calls = earlier ++ recordingCalls ∧
        (∀ call ∈ earlier, call.isRecording = false) ∧
        .pipeline ∈ createdObjects drv earlier ∧
        .descriptorSet ∈ createdObjects drv earlier ∧
        .commandBuffer ∈ createdObjects drv earlier) := by
  constructor
  · intro app hbegin
    constructor
    · simp only [recordCommandBuffer, VK_ASSERT_SUCCESS, hbegin, ne_eq, not_true, if_false,
        Outcome.andThen, VK_ASSERT_SUCCESS_app]
      split <;> simp [Outcome.app, App.record, recordingCalls]
    · intro hend
      simp [recordCommandBuffer, VK_ASSERT_SUCCESS, hbegin, hend, Outcome.andThen, App.record,
        recordingCalls]
  · intro app h
    obtain ⟨⟨memoryTypeIndex, codeSize, hcalls⟩, hsuccess⟩ := construct_ok_trace h
    have hsplit : app.calls = app.calls.take (app.calls.length - 5) ++ recordingCalls := by
      rw [hcalls]
      cases hv : drv.isValidationEnabled <;> simp [constructTrace, hv, recordingCalls]
    have hearlier : ∀ call ∈ app.calls.take (app.calls.length - 5), call ∈ app.calls :=
      fun call hcall => List.mem_of_mem_take hcall
    refine ⟨app.calls.take (app.calls.length - 5), hsplit, ?_, ?_⟩
    · rw [hcalls]
      cases hv : drv.isValidationEnabled <;>
        simp [constructTrace, hv, VkCall.isRecording]
    · rw [createdObjects_of_success drv _ fun call hcall => hsuccess call (hearlier call hcall),
        hcalls]
      cases hv : drv.isValidationEnabled <;>
        simp [constructTrace, hv, List.filterMap_cons, VkCall.creates]

theorem recordCommandBuffer_records_once_witness :
    (recordCommandBuffer plainDriver {}).app.calls = [] ++ recordingCalls ∧
    recordCommandBuffer plainDriver {} = .ok { calls := [] ++ recordingCalls } ∧
    ∃ earlier, (VulkanComputeApplication.construct plainDriver).app.calls
        = earlier ++ recordingCalls ∧
      (∀ call ∈ earlier, call.isRecording = false) ∧
      .pipeline ∈ createdObjects plainDriver earlier ∧
      .descriptorSet ∈ createdObjects plainDriver earlier ∧
      .commandBuffer ∈ createdObjects plainDriver earlier :=
  ⟨((recordCommandBuffer_records_once plainDriver).1 {} (by decide)).1,
    ((recordCommandBuffer_records_once plainDriver).1 {} (by decide)).2 (by decide),
    (recordCommandBuffer_records_once plainDriver).2 _ (by decide)⟩

/-- C15.  In a construction that returns there is one descriptor set layout, one descriptor pool,
one descriptor set allocation and one batched descriptor update.  The layout declares exactly the
bindings 0 and 1, each one storage-buffer descriptor with the compute stage as its only stage.
The update writes binding 0 from the input buffer and binding 1 from the output buffer, each one
storage-buffer descriptor at array element 0 with offset 0 and the whole-size range, so the writes
match the layout binding by binding.  The pool holds 2 storage-buffer descriptors and 1 set, which
is what the one allocated set of that layout demands. -/
theorem descriptor_writes_match_layout_and_pool (drv : Driver) (app : App)
    (h : VulkanComputeApplication.construct drv = .ok app) :
    ∃ bindings writes poolType poolCount maxSets setCount,
      descriptorSetLayouts app.calls = [bindings] ∧
      descriptorUpdates app.calls = [writes] ∧
      descriptorPools app.calls = [(poolType, poolCount, maxSets)] ∧
      descriptorSetAllocations app.calls = [setCount] ∧
      bindings.map (fun b => b.binding) = [0, 1] ∧
      (∀ b ∈ bindings, b.descriptorType = VK_DESCRIPTOR_TYPE_STORAGE_BUFFER ∧
        b.descriptorCount = 1 ∧ b.stageFlags = VK_SHADER_STAGE_COMPUTE_BIT) ∧
      writes.map (fun w => (w.dstBinding, w.bufferInfo.buffer))
        = [(0, .inputBuffer), (1, .outputBuffer)] ∧
      (∀ w ∈ writes, w.bufferInfo.offset = 0 ∧ w.bufferInfo.range = VK_WHOLE_SIZE ∧
        w.descriptorType = VK_DESCRIPTOR_TYPE_STORAGE_BUFFER ∧ w.descriptorCount = 1 ∧
        w.dstArrayElement = 0) ∧
      writes.map (fun w => (w.dstBinding, w.descriptorType, w.descriptorCount))
        = bindings.map (fun b => (b.binding, b.descriptorType, b.descriptorCount)) ∧
      poolType = VK_DESCRIPTOR_TYPE_STORAGE_BUFFER ∧ poolCount = 2 ∧ maxSets = 1 ∧
      setCount = 1 ∧
      poolCount = setCount * (bindings.map fun b => b.descriptorCount).sum ∧
      maxSets = setCount := by
  obtain ⟨⟨memoryTypeIndex, codeSize, hcalls⟩, _⟩ := construct_ok_trace h
  refine ⟨[ ⟨0, VK_DESCRIPTOR_TYPE_STORAGE_BUFFER, 1, VK_SHADER_STAGE_COMPUTE_BIT⟩,
      ⟨1, VK_DESCRIPTOR_TYPE_STORAGE_BUFFER, 1, VK_SHADER_STAGE_COMPUTE_BIT⟩ ],
    [ ⟨0, 0, 1, VK_DESCRIPTOR_TYPE_STORAGE_BUFFER, ⟨.inputBuffer, 0, VK_WHOLE_SIZE⟩⟩,
      ⟨1, 0, 1, VK_DESCRIPTOR_TYPE_STORAGE_BUFFER, ⟨.outputBuffer, 0, VK_WHOLE_SIZE⟩⟩ ],
    VK_DESCRIPTOR_TYPE_STORAGE_BUFFER, 2, 1, 1, ?_, ?_, ?_, ?_, rfl, ?_, rfl, ?_, rfl, rfl, rfl,
    rfl, rfl, rfl, rfl⟩
  · rw [hcalls]
    cases hv : drv.isValidationEnabled <;>
      simp [constructTrace, hv, descriptorSetLayouts, List.filterMap_cons]
  · rw [hcalls]
    cases hv : drv.isValidationEnabled <;>
      simp [constructTrace, hv, descriptorUpdates, List.filterMap_cons]
  · rw [hcalls]
    cases hv : drv.isValidationEnabled <;>
      simp [constructTrace, hv, descriptorPools, List.filterMap_cons]
  · rw [hcalls]
    cases hv : drv.isValidationEnabled <;>
      simp [constructTrace, hv, descriptorSetAllocations, List.filterMap_cons]
  · intro b hb
    simp only [List.mem_cons, List.mem_singleton, List.not_mem_nil, or_false] at hb
    rcases hb with rfl | rfl <;> exact ⟨rfl, rfl, rfl⟩
  · intro w hw
    simp only [List.mem_cons, List.mem_singleton, List.not_mem_nil, or_false] at hw
    rcases hw with rfl | rfl <;> exact ⟨rfl, rfl, rfl, rfl, rfl⟩

theorem descriptor_writes_match_layout_and_pool_witness :
    ∃ bindings writes poolType poolCount maxSets setCount,
      descriptorSetLayouts (VulkanComputeApplication.construct plainDriver).app.calls
        = [bindings] ∧
      descriptorUpdates (VulkanComputeApplication.construct plainDriver).app.calls = [writes] ∧
      descriptorPools (VulkanComputeApplication.construct plainDriver).app.calls
        = [(poolType, poolCount, maxSets)] ∧
      descriptorSetAllocations (VulkanComputeApplication.construct plainDriver).app.calls
        = [setCount] ∧
      bindings.map (fun b => b.binding) = [0, 1] ∧
      (∀ b ∈ bindings, b.descriptorType = VK_DESCRIPTOR_TYPE_STORAGE_BUFFER ∧
        b.descriptorCount = 1 ∧ b.stageFlags = VK_SHADER_STAGE_COMPUTE_BIT) ∧
      writes.map (fun w => (w.dstBinding, w.bufferInfo.buffer))
        = [(0, .inputBuffer), (1, .outputBuffer)] ∧
      (∀ w ∈ writes, w.bufferInfo.offset = 0 ∧ w.bufferInfo.range = VK_WHOLE_SIZE ∧
        w.descriptorType = VK_DESCRIPTOR_TYPE_STORAGE_BUFFER ∧ w.descriptorCount = 1 ∧
        w.dstArrayElement = 0) ∧
      writes.map (fun w => (w.dstBinding, w.descriptorType, w.descriptorCount))
        = bindings.map (fun b => (b.binding, b.descriptorType, b.descriptorCount)) ∧
      poolType = VK_DESCRIPTOR_TYPE_STORAGE_BUFFER ∧ poolCount = 2 ∧ maxSets = 1 ∧
      setCount = 1 ∧
      poolCount = setCount * (bindings.map fun b => b.descriptorCount).sum ∧
      maxSets = setCount :=
  descriptor_writes_match_layout_and_pool plainDriver _ (by decide)

/-! ## Failure at a statement of the constructor -/

/-- When the statements before position `k` return and the statement at position `k` throws, the
constructor ends with that exception and state. -/
theorem construct_eq_throw_of_step (drv : Driver) (k : Nat) (step : App → Outcome)
    (before after : App) (message : String)
    (hstep : (constructorSteps drv)[k]? = some step)
    (hbefore : runSteps ((constructorSteps drv).take k) (.ok {}) = .ok before)
    (hthrow : step before = .throw message after) :
    VulkanComputeApplication.construct drv = .throw message after := by
  have hsplit : constructorSteps drv
      = (constructorSteps drv).take k ++ (step :: (constructorSteps drv).drop (k + 1)) := by
    have h := List.take_append_drop (k + 1) (constructorSteps drv)
    rw [List.take_succ, hstep, Option.toList, List.append_assoc] at h
    exact h.symm
  unfold VulkanComputeApplication.construct
  rw [hsplit, runSteps_append, hbefore]
  show runSteps _ ((Outcome.ok before).andThen step) = _
  simp only [Outcome.andThen, hthrow, runSteps_throw]

/-- Every creating call in the trace left by the first `k` statements of the constructor creates
an object of a statement before position `k`. -/
theorem runSteps_take_createdBy (drv : Driver) (k : Nat) :
    ∀ call ∈ (runSteps ((constructorSteps drv).take k) (.ok {})).app.calls,
      ∀ object, call.creates = some object → object.createdBy < k := by
  induction k with
  | zero =>
    intro call hcall
    simp [runSteps, Outcome.app] at hcall
  | succ k ih =>
    intro call hcall object hobject
    rw [List.take_succ, runSteps_append] at hcall
    cases hstep : (constructorSteps drv)[k]? with
    | none =>
      rw [hstep] at hcall
      exact Nat.lt_succ_of_lt (ih call hcall object hobject)
    | some step =>
      rw [hstep] at hcall
      have hrun : ∀ o : Outcome, runSteps (some step).toList o = o.andThen step := fun _ => rfl
      rw [hrun] at hcall
      cases hprev : runSteps ((constructorSteps drv).take k) (.ok {}) with
      | throw message mid =>
        rw [hprev] at hcall ih
        exact Nat.lt_succ_of_lt (ih call hcall object hobject)
      | ok mid =>
        rw [hprev] at hcall ih
        obtain ⟨added, hadded, hP⟩ := constructorSteps_createdBy drv k step hstep mid
        have hcall2 : call ∈ (step mid).app.calls := hcall
        rw [hadded] at hcall2
        rcases List.mem_append.mp hcall2 with hmem | hmem
        · exact Nat.lt_succ_of_lt (ih call hmem object hobject)
        · rw [hP call hmem object hobject]
          exact Nat.lt_succ_self k

/-- C12 as stated fails.  The shader file of `oddShaderDriver` holds 5 bytes, not a multiple of 4,
and the driver accepts the module.  The constructor passes 5 as the code size, returns normally,
and both the pipeline layout and the pipeline are created. -/
theorem construct_accepts_odd_shader_length :
    oddShaderDriver.shaderFile = some [3, 2, 35, 7, 0] ∧
    ([3, 2, 35, 7, 0] : List Nat).length % 4 ≠ 0 ∧
    (VulkanComputeApplication.construct oddShaderDriver).isOk = true ∧
    VkCall.vkCreateShaderModule 5 ∈ (VulkanComputeApplication.construct oddShaderDriver).app.calls ∧
    .pipelineLayout ∈ createdObjects oddShaderDriver
      (VulkanComputeApplication.construct oddShaderDriver).app.calls ∧
    .pipeline ∈ createdObjects oddShaderDriver
      (VulkanComputeApplication.construct oddShaderDriver).app.calls :=
  ⟨rfl, by decide, by decide, by decide, by decide, by decide⟩

/-- C12, amended.  Let the shader file hold the bytes `code`, of any length, and let the six
statements before `createShaderModule` return.  The constructor passes the length of `code` as the
code size and makes no check of its own.  When `vkCreateShaderModule` returns a non-success
result, the constructor throws at the shader-module statement, and no call of the trace creates a
pipeline layout or a pipeline.  When it returns `VK_SUCCESS`, the shader-module statement
returns. -/
theorem createShaderModule_failure_stops_construction (drv : Driver) (code : List Nat)
    (before : App) (hfile : drv.shaderFile = some code)
    (hbefore : runSteps ((constructorSteps drv).take 6) (.ok {}) = .ok before) :
    (drv.result (.vkCreateShaderModule code.length) ≠ VK_SUCCESS →
      VulkanComputeApplication.construct drv = .throw "Failed to create shader module!"
        (before.record (.vkCreateShaderModule code.length)) ∧
      ∀ call ∈ (before.record (.vkCreateShaderModule code.length)).calls,
        call.creates ≠ some .pipelineLayout ∧ call.creates ≠ some .pipeline) ∧
    (drv.result (.vkCreateShaderModule code.length) = VK_SUCCESS →
      createShaderModule drv before = .ok (before.record (.vkCreateShaderModule code.length))) := by
  constructor
  · intro hresult
    have hthrow : createShaderModule drv before = .throw "Failed to create shader module!"
        (before.record (.vkCreateShaderModule code.length)) := by
      simp [createShaderModule, readLocalFile, hfile, VK_ASSERT_SUCCESS, hresult]
    refine ⟨construct_eq_throw_of_step drv 6 (createShaderModule drv) before _ _ rfl hbefore
      hthrow, fun call hcall => ?_⟩
    simp only [App.record, List.mem_append, List.mem_singleton] at hcall
    rcases hcall with hcall | rfl
    · have hlt := runSteps_take_createdBy drv 6 call (by rw [hbefore]; exact hcall)
      constructor
      · intro hlayout
        exact absurd (hlt _ hlayout) (by decide)
      · intro hpipeline
        exact absurd (hlt _ hpipeline) (by decide)
    · exact ⟨by simp [VkCall.creates], by simp [VkCall.creates]⟩
  · intro hresult
    simp [createShaderModule, readLocalFile, hfile, VK_ASSERT_SUCCESS, hresult]

theorem createShaderModule_failure_stops_construction_witness :
    (VulkanComputeApplication.construct oddShaderRejectedDriver
        = .throw "Failed to create shader module!"
          ((runSteps ((constructorSteps oddShaderRejectedDriver).take 6) (.ok {})).app.record
            (.vkCreateShaderModule 5)) ∧
      ∀ call ∈ ((runSteps ((constructorSteps oddShaderRejectedDriver).take 6) (.ok {})).app.record
          (.vkCreateShaderModule 5)).calls,
        call.creates ≠ some .pipelineLayout ∧ call.creates ≠ some .pipeline) ∧
    createShaderModule oddShaderDriver
        (runSteps ((constructorSteps oddShaderDriver).take 6) (.ok {})).app
      = .ok ((runSteps ((constructorSteps oddShaderDriver).take 6) (.ok {})).app.record
          (.vkCreateShaderModule 5)) :=
  ⟨(createShaderModule_failure_stops_construction oddShaderRejectedDriver [3, 2, 35, 7, 0] _ rfl
      (by decide)).1 (by decide),
    (createShaderModule_failure_stops_construction oddShaderDriver [3, 2, 35, 7, 0] _ rfl
      (by decide)).2 (by decide)⟩

end VkComputeTest
